import Mathlib

/-!
# bluzDK firmware: Running Speed and Cadence client and RTC timer wrapper

A shallow embedding of

* `ble_rscs_c.c` (the BLE GATT client for the Running Speed and Cadence
  service: its transmit ring buffer, event dispatch, notification decoding,
  discovery handling and initialisation), and
* `rtc_timer.cpp` (the `RTCTimer` wrapper around the application timer API),

followed by theorems about their behaviour.

Conventions of the embedding.

* Module-level statics are fields of an explicit state that every function
  takes and returns.
* Calls that leave the module (SoftDevice calls, the application's event
  handler, the timer API) are recorded, in order, in a list that the function
  returns; the status code such a call returns is supplied by an oracle
  argument, so it is arbitrary.
* A pointer is an `Option`; `none` is `NULL`.
* `uint32_t` arithmetic is on `Nat` with an explicit `% 2 ^ 32`.
* Constants that come from SDK headers which are not part of the sources are
  fields of the parameter `Sdk`; no theorem depends on their values unless it
  says so in a hypothesis.
-/

namespace BluzDK

/-! ## SDK constants and helpers -/

/-- Constants declared in SDK headers (`nrf_error.h`, `ble_srv_common.h`,
`ble_gatt.h`, `ble_types.h`, `ble_rscs_c.h`) that the two source files use but
do not define.  They are kept symbolic. -/
structure Sdk where
  NRF_SUCCESS : Nat
  NRF_ERROR_NULL : Nat
  BLE_CCCD_VALUE_LEN : Nat
  BLE_GATT_HVX_NOTIFICATION : Nat
  BLE_GATT_OP_WRITE_REQ : Nat
  BLE_CONN_HANDLE_INVALID : Nat
  BLE_GATT_HANDLE_INVALID : Nat
  BLE_UUID_RUNNING_SPEED_AND_CADENCE : Nat
  BLE_UUID_RSC_MEASUREMENT_CHAR : Nat
  BLE_UUID_TYPE_BLE : Nat
  BLE_RSCS_INSTANT_STRIDE_LEN_PRESENT : Nat
  BLE_RSCS_TOTAL_DISTANCE_PRESENT : Nat
  BLE_RSCS_WALKING_OR_RUNNING_STATUS_BIT : Nat
  deriving DecidableEq

/-- The values these constants have in the Nordic nRF51 SDK; used only to
instantiate theorems at a concrete input. -/
def nrf51Sdk : Sdk where
  NRF_SUCCESS := 0
  NRF_ERROR_NULL := 14
  BLE_CCCD_VALUE_LEN := 2
  BLE_GATT_HVX_NOTIFICATION := 1
  BLE_GATT_OP_WRITE_REQ := 1
  BLE_CONN_HANDLE_INVALID := 0xFFFF
  BLE_GATT_HANDLE_INVALID := 0
  BLE_UUID_RUNNING_SPEED_AND_CADENCE := 0x1814
  BLE_UUID_RSC_MEASUREMENT_CHAR := 0x2A53
  BLE_UUID_TYPE_BLE := 1
  BLE_RSCS_INSTANT_STRIDE_LEN_PRESENT := 0
  BLE_RSCS_TOTAL_DISTANCE_PRESENT := 1
  BLE_RSCS_WALKING_OR_RUNNING_STATUS_BIT := 2

/-- Modelled from the spec: the macro `LSB` of `app_util.h`, a header that is
not among the sources.  It yields the least significant byte of a 16-bit
value, the first byte of its little-endian encoding. -/
def LSB (a : Nat) : Nat := a &&& 0xFF

/-- Modelled from the spec: the macro `MSB` of `app_util.h`, a header that is
not among the sources.  It yields the most significant byte of a 16-bit
value, the second byte of its little-endian encoding. -/
def MSB (a : Nat) : Nat := (a &&& 0xFF00) >>> 8

/-- Modelled from the spec: the inline helper `uint16_decode` of `app_util.h`,
a header that is not among the sources.  It decodes a little-endian 16-bit
value from the two bytes at the pointer it is given.  The pointer is the
function from offsets to the bytes (`uint8_t`, so below 256) found there. -/
def uint16_decode (p_encoded_data : Nat → Nat) : Nat :=
  p_encoded_data 0 ||| (p_encoded_data 1 <<< 8)

/-- Modelled from the spec: the inline helper `uint32_decode` of `app_util.h`,
a header that is not among the sources.  It decodes a little-endian 32-bit
value from the four bytes at the pointer it is given. -/
def uint32_decode (p_encoded_data : Nat → Nat) : Nat :=
  p_encoded_data 0 ||| (p_encoded_data 1 <<< 8) |||
    (p_encoded_data 2 <<< 16) ||| (p_encoded_data 3 <<< 24)

/-! ## The transmit buffer of `ble_rscs_c.c` -/

/-- The macro `TX_BUFFER_MASK`. -/
def TX_BUFFER_MASK : Nat := 0x07

/-- The macro `TX_BUFFER_SIZE`. -/
def TX_BUFFER_SIZE : Nat := TX_BUFFER_MASK + 1

/-- The macro `WRITE_MESSAGE_LENGTH`. -/
def WRITE_MESSAGE_LENGTH (K : Sdk) : Nat := K.BLE_CCCD_VALUE_LEN

/-- The enum `tx_request_t`. -/
inductive tx_request_t where
  | READ_REQ
  | WRITE_REQ
  deriving DecidableEq

/-- The fields of `ble_gattc_write_params_t` that the module assigns.
`p_value` points at the `gattc_value` array of a transmit buffer entry: it is
`some i` for the array of entry `i` and `none` for a null pointer. -/
structure ble_gattc_write_params_t where
  write_op : Nat
  handle : Nat
  offset : Nat
  len : Nat
  p_value : Option Nat
  deriving DecidableEq

/-- The struct `write_params_t`. -/
structure write_params_t where
  gattc_value : List Nat
  gattc_params : ble_gattc_write_params_t
  deriving DecidableEq

/-- The struct `tx_message_t`.  The union `req` is kept as the storage of its
larger member `write_req`; the member `read_handle` is read from the first
two bytes of that storage (see `tx_message_t.read_handle`). -/
structure tx_message_t where
  conn_handle : Nat
  type : tx_request_t
  req : write_params_t
  deriving DecidableEq

/-- The union member `req.read_handle`: the 16-bit value that shares its
storage with the first two bytes of `req.write_req` on the little-endian
target. -/
def tx_message_t.read_handle (m : tx_message_t) : Nat :=
  m.req.gattc_value.getD 0 0 + 256 * m.req.gattc_value.getD 1 0

/-- A zero-initialised `tx_message_t`, as static storage starts out. -/
def tx_message_zero (K : Sdk) : tx_message_t where
  conn_handle := 0
  type := tx_request_t.READ_REQ
  req :=
    { gattc_value := List.replicate (WRITE_MESSAGE_LENGTH K) 0
      gattc_params := { write_op := 0, handle := 0, offset := 0, len := 0, p_value := none } }

instance : Inhabited tx_message_t :=
  ⟨{ conn_handle := 0, type := tx_request_t.READ_REQ,
     req := { gattc_value := [],
              gattc_params :=
                { write_op := 0, handle := 0, offset := 0, len := 0, p_value := none } } }⟩

/-- The statics `m_tx_buffer`, `m_tx_insert_index` and `m_tx_index`. -/
structure TxState where
  m_tx_buffer : List tx_message_t
  m_tx_insert_index : Nat
  m_tx_index : Nat
  deriving DecidableEq

/-- The state at program start: a zeroed buffer and both indices 0. -/
def TxState.initial (K : Sdk) : TxState where
  m_tx_buffer := List.replicate TX_BUFFER_SIZE (tx_message_zero K)
  m_tx_insert_index := 0
  m_tx_index := 0

/-- A call into the SoftDevice GATT client API, with its arguments.  For a
write, `value` holds the `len` bytes that `p_value` points at when the call
is made. -/
inductive StackCall where
  | sd_ble_gattc_read (conn_handle handle offset : Nat)
  | sd_ble_gattc_write (conn_handle : Nat) (p_write_params : ble_gattc_write_params_t)
      (value : List Nat)
  deriving DecidableEq

/-- The bytes a write parameter block points at. -/
def write_value (buf : List tx_message_t) (p : ble_gattc_write_params_t) : List Nat :=
  match p.p_value with
  | none => []
  | some j => ((buf.getD j default).req.gattc_value).take p.len

/-- The stack call that `tx_buffer_process` issues for the entry at index
`i` of the buffer. -/
def tx_call (buf : List tx_message_t) (i : Nat) : StackCall :=
  let m := buf.getD i default
  if m.type = tx_request_t.READ_REQ then
    StackCall.sd_ble_gattc_read m.conn_handle m.read_handle 0
  else
    StackCall.sd_ble_gattc_write m.conn_handle m.req.gattc_params
      (write_value buf m.req.gattc_params)

/-- The function `tx_buffer_process`.  `sd` gives the status code the
SoftDevice returns for the call made.  Returns the new state and the stack
calls made. -/
def tx_buffer_process (K : Sdk) (sd : StackCall → Nat) (s : TxState) :
    TxState × List StackCall :=
  if s.m_tx_index ≠ s.m_tx_insert_index then
    let call := tx_call s.m_tx_buffer s.m_tx_index
    let err_code := sd call
    if err_code = K.NRF_SUCCESS then
      ({ s with m_tx_index := ((s.m_tx_index + 1) % 2 ^ 32) &&& TX_BUFFER_MASK }, [call])
    else
      (s, [call])
  else
    (s, [])

/-- The entry that `cccd_configure` leaves at `p_msg`, given what was there. -/
def cccd_message (K : Sdk) (old : tx_message_t) (slot conn_handle handle_cccd : Nat)
    (enable : Bool) : tx_message_t :=
  let cccd_val := if enable then K.BLE_GATT_HVX_NOTIFICATION else 0
  { conn_handle := conn_handle
    type := tx_request_t.WRITE_REQ
    req :=
      { gattc_value := (old.req.gattc_value.set 0 (LSB cccd_val)).set 1 (MSB cccd_val)
        gattc_params :=
          { handle := handle_cccd
            len := WRITE_MESSAGE_LENGTH K
            p_value := some slot
            offset := 0
            write_op := K.BLE_GATT_OP_WRITE_REQ } } }

/-- The function `cccd_configure`.  Returns its return value, the new state
and the stack calls made. -/
def cccd_configure (K : Sdk) (sd : StackCall → Nat) (s : TxState)
    (conn_handle handle_cccd : Nat) (enable : Bool) : Nat × TxState × List StackCall :=
  let slot := s.m_tx_insert_index
  let s1 : TxState :=
    { s with
      m_tx_insert_index := ((s.m_tx_insert_index + 1) % 2 ^ 32) &&& TX_BUFFER_MASK
      m_tx_buffer :=
        s.m_tx_buffer.set slot
          (cccd_message K (s.m_tx_buffer.getD slot default) slot conn_handle handle_cccd enable) }
  let r := tx_buffer_process K sd s1
  (K.NRF_SUCCESS, r.1, r.2)

/-! ### Runs of the queue -/

/-- One operation on the queue, with the SoftDevice's answers for it. -/
inductive Op where
  | configure (conn_handle handle_cccd : Nat) (enable : Bool) (sd : StackCall → Nat)
  | process (sd : StackCall → Nat)

/-- The queue state after one operation. -/
def Op.apply (K : Sdk) (s : TxState) : Op → TxState
  | Op.configure conn_handle handle_cccd enable sd =>
      (cccd_configure K sd s conn_handle handle_cccd enable).2.1
  | Op.process sd => (tx_buffer_process K sd s).1

/-- 1 if an index moved, 0 if it stayed. -/
def advanced (old new : Nat) : Nat := if new = old then 0 else 1

/-- A queue state together with the number of advances of each index since
program start. -/
structure Counted where
  q : TxState
  inserted : Nat
  sent : Nat

/-- One operation, counting the advances of the two indices. -/
def Counted.step (K : Sdk) (c : Counted) (op : Op) : Counted :=
  let q1 := op.apply K c.q
  { q := q1
    inserted := c.inserted + advanced c.q.m_tx_insert_index q1.m_tx_insert_index
    sent := c.sent + advanced c.q.m_tx_index q1.m_tx_index }

/-- The state reached from program start by a sequence of operations. -/
def run (K : Sdk) (ops : List Op) : Counted :=
  ops.foldl (Counted.step K) { q := TxState.initial K, inserted := 0, sent := 0 }

/-- The stack calls that one operation makes. -/
def Op.calls (K : Sdk) (s : TxState) : Op → List StackCall
  | Op.configure conn_handle handle_cccd enable sd =>
      (cccd_configure K sd s conn_handle handle_cccd enable).2.2
  | Op.process sd => (tx_buffer_process K sd s).2

/-- The buffer slots that one operation assigns to: `cccd_configure` fills
the entry `p_msg`, which is the one at the insert index it finds;
`tx_buffer_process` assigns to no entry. -/
def Op.slots (s : TxState) : Op → List Nat
  | Op.configure _ _ _ _ => [s.m_tx_insert_index]
  | Op.process _ => []

/-- The buffer slots assigned to along a sequence of operations started in
state `s`, in order. -/
def written_slots (K : Sdk) : TxState → List Op → List Nat
  | _, [] => []
  | s, op :: ops => op.slots s ++ written_slots K (op.apply K s) ops

/-- The invariant that ties the buffer contents to the counters: the indices
are the counters modulo 8, no more entries were sent than inserted, the
buffer has 8 entries, and every slot below the number of insertions has type
`WRITE_REQ` and is among the slots `W` assigned to so far. -/
def WrittenInv (c : Counted) (W : List Nat) : Prop :=
  c.q.m_tx_index = c.sent % 8 ∧ c.q.m_tx_insert_index = c.inserted % 8 ∧
    c.sent ≤ c.inserted ∧ c.q.m_tx_buffer.length = 8 ∧
    ∀ j, j < 8 → j < c.inserted →
      (c.q.m_tx_buffer.getD j default).type = tx_request_t.WRITE_REQ ∧ j ∈ W

/-! ## The client structure and its events -/

/-- The fields of `ble_rscs_c_t` that the module uses.  `evt_handler` is the
address of the application's handler function. -/
structure ble_rscs_c_t where
  conn_handle : Nat
  rsc_cccd_handle : Nat
  rsc_handle : Nat
  evt_handler : Nat
  deriving DecidableEq

/-- The memory holding client structures: the structure found at each
address.  A `ble_rscs_c_t *` is an `Option Nat`, an address or `NULL`. -/
abbrev Heap := Nat → ble_rscs_c_t

/-- The struct `ble_rscs_c_init_t`. -/
structure ble_rscs_c_init_t where
  evt_handler : Nat
  deriving DecidableEq

/-- The enum `ble_rscs_c_evt_type_t`. -/
inductive ble_rscs_c_evt_type_t where
  | BLE_RSCS_C_EVT_DISCOVERY_COMPLETE
  | BLE_RSCS_C_EVT_RSC_NOTIFICATION
  deriving DecidableEq

/-- The measurement structure `params.rsc` of `ble_rscs_c_evt_t`. -/
structure ble_rsc_t where
  is_inst_stride_len_present : Bool
  is_total_distance_present : Bool
  is_running : Bool
  inst_speed : Nat
  inst_cadence : Nat
  inst_stride_length : Nat
  total_distance : Nat
  deriving DecidableEq

/-- The struct `ble_rscs_c_evt_t`. -/
structure ble_rscs_c_evt_t where
  evt_type : ble_rscs_c_evt_type_t
  rsc : ble_rsc_t
  deriving DecidableEq

/-- A call of the application's event handler: the function called, the
client pointer and the event passed. -/
structure AppCall where
  evt_handler : Nat
  p_ble_rscs_c : Nat
  evt : ble_rscs_c_evt_t
  deriving DecidableEq

/-- The event identifiers that `ble_rscs_c_on_ble_evt` switches on; every
other identifier is `other`. -/
inductive ble_evt_id_t where
  | BLE_GAP_EVT_CONNECTED
  | BLE_GATTC_EVT_HVX
  | BLE_GATTC_EVT_WRITE_RSP
  | other (id : Nat)
  deriving DecidableEq

/-- The fields of `ble_gattc_evt_hvx_t` that the module reads.  `data` is the
byte found at each offset of the flexible array member. -/
structure ble_gattc_evt_hvx_t where
  handle : Nat
  data : Nat → Nat

/-- The fields of `ble_evt_t` that the module reads: `header.evt_id`,
`evt.gap_evt.conn_handle` and `evt.gattc_evt.params.hvx`. -/
structure ble_evt_t where
  evt_id : ble_evt_id_t
  gap_conn_handle : Nat
  hvx : ble_gattc_evt_hvx_t

/-- The function `on_hvx`.  `uninit` is the content that the local variable
`ble_rscs_c_evt` has before anything is assigned to it.  Returns the calls
of the application's handler. -/
def on_hvx (K : Sdk) (uninit : ble_rscs_c_evt_t) (heap : Heap) (p_ble_rscs_c : Nat)
    (p_ble_evt : ble_evt_t) : List AppCall :=
  let p_notif := p_ble_evt.hvx
  if p_ble_evt.hvx.handle = (heap p_ble_rscs_c).rsc_handle then
    let index := 0
    let stride : Bool :=
      ((p_notif.data index >>> K.BLE_RSCS_INSTANT_STRIDE_LEN_PRESENT) &&& 0x01) != 0
    let dist : Bool :=
      ((p_notif.data index >>> K.BLE_RSCS_TOTAL_DISTANCE_PRESENT) &&& 0x01) != 0
    let running : Bool :=
      ((p_notif.data index >>> K.BLE_RSCS_WALKING_OR_RUNNING_STATUS_BIT) &&& 0x01) != 0
    let index := index + 1
    let inst_speed := uint16_decode (fun j => p_notif.data (index + j))
    let index := index + 2
    let inst_cadence := p_notif.data index
    let index := index + 1
    let inst_stride_length :=
      if stride = true then uint16_decode (fun j => p_notif.data (index + j))
      else uninit.rsc.inst_stride_length
    let index := if stride = true then index + 2 else index
    let total_distance :=
      if dist = true then uint32_decode (fun j => p_notif.data (index + j))
      else uninit.rsc.total_distance
    [{ evt_handler := (heap p_ble_rscs_c).evt_handler
       p_ble_rscs_c := p_ble_rscs_c
       evt :=
        { evt_type := ble_rscs_c_evt_type_t.BLE_RSCS_C_EVT_RSC_NOTIFICATION
          rsc :=
            { is_inst_stride_len_present := stride
              is_total_distance_present := dist
              is_running := running
              inst_speed := inst_speed
              inst_cadence := inst_cadence
              inst_stride_length := inst_stride_length
              total_distance := total_distance } } }]
  else
    []

/-! ## Database discovery -/

/-- The struct `ble_uuid_t`. -/
structure ble_uuid_t where
  uuid : Nat
  type : Nat
  deriving DecidableEq

/-- The fields of `ble_gattc_char_t` that the module reads. -/
structure ble_gattc_char_t where
  uuid : ble_uuid_t
  handle_value : Nat
  deriving DecidableEq

/-- The fields of `ble_db_discovery_char_t` that the module reads. -/
structure ble_db_discovery_char_t where
  characteristic : ble_gattc_char_t
  cccd_handle : Nat
  deriving DecidableEq

/-- The fields of `ble_db_discovery_srv_t` that the module reads.
`charateristics` (spelt as in the SDK) is the array, by index. -/
structure ble_db_discovery_srv_t where
  srv_uuid : ble_uuid_t
  char_count : Nat
  charateristics : Nat → ble_db_discovery_char_t

/-- The enum `ble_db_discovery_evt_type_t`: the enumerator the module tests
for, and every other one. -/
inductive ble_db_discovery_evt_type_t where
  | BLE_DB_DISCOVERY_COMPLETE
  | other (n : Nat)
  deriving DecidableEq

/-- The fields of `ble_db_discovery_evt_t` that the module reads. -/
structure ble_db_discovery_evt_t where
  evt_type : ble_db_discovery_evt_type_t
  conn_handle : Nat
  discovered_db : ble_db_discovery_srv_t

/-- The `for` loop of `db_discover_evt_handler`, from index `i` on, acting on
the client structure `c`.  `fuel` bounds the number of iterations; the
handler passes `char_count`, which the loop never exceeds. -/
def db_discover_loop (K : Sdk) (db : ble_db_discovery_srv_t) (c : ble_rscs_c_t) :
    Nat → Nat → ble_rscs_c_t
  | 0, _ => c
  | fuel + 1, i =>
    if i < db.char_count then
      if (db.charateristics i).characteristic.uuid.uuid = K.BLE_UUID_RSC_MEASUREMENT_CHAR then
        { c with
          rsc_cccd_handle := (db.charateristics i).cccd_handle
          rsc_handle := (db.charateristics i).characteristic.handle_value }
      else
        db_discover_loop K db c fuel (i + 1)
    else
      c

/-- The function `db_discover_evt_handler`.  `mp_ble_rscs_c` is the pointer
to the module's instance and `uninit` the content of the local variable `evt`
before anything is assigned to it.  Returns the new memory and the calls of the
application's handler, or `none` when the null instance pointer is
dereferenced. -/
def db_discover_evt_handler (K : Sdk) (uninit : ble_rscs_c_evt_t) (mp_ble_rscs_c : Option Nat)
    (heap : Heap) (p_evt : ble_db_discovery_evt_t) : Option (Heap × List AppCall) :=
  if p_evt.evt_type = ble_db_discovery_evt_type_t.BLE_DB_DISCOVERY_COMPLETE ∧
      p_evt.discovered_db.srv_uuid.uuid = K.BLE_UUID_RUNNING_SPEED_AND_CADENCE ∧
      p_evt.discovered_db.srv_uuid.type = K.BLE_UUID_TYPE_BLE then
    match mp_ble_rscs_c with
    | none => none
    | some a =>
      let c1 := { heap a with conn_handle := p_evt.conn_handle }
      let c2 := db_discover_loop K p_evt.discovered_db c1 p_evt.discovered_db.char_count 0
      let evt :=
        { uninit with evt_type := ble_rscs_c_evt_type_t.BLE_RSCS_C_EVT_DISCOVERY_COMPLETE }
      some (Function.update heap a c2,
        [{ evt_handler := c2.evt_handler, p_ble_rscs_c := a, evt := evt }])
  else
    some (heap, [])

/-! ## Initialisation and the public entry points -/

/-- What `ble_rscs_c_init` leaves behind: its return value, the pointer to
the module's instance, the memory, and the service UUIDs for which it
registered `db_discover_evt_handler` with the discovery module. -/
structure InitResult where
  ret : Nat
  mp_ble_rscs_c : Option Nat
  heap : Heap
  registered : List ble_uuid_t

/-- The function `ble_rscs_c_init`.  `evt_register` gives the status code
that `ble_db_discovery_evt_register` returns. -/
def ble_rscs_c_init (K : Sdk) (evt_register : ble_uuid_t → Nat) (mp_ble_rscs_c : Option Nat)
    (heap : Heap) (p_ble_rscs_c : Option Nat) (p_ble_rscs_c_init : Option ble_rscs_c_init_t) :
    InitResult :=
  match p_ble_rscs_c, p_ble_rscs_c_init with
  | some a, some ini =>
    let rscs_uuid : ble_uuid_t :=
      { type := K.BLE_UUID_TYPE_BLE, uuid := K.BLE_UUID_RUNNING_SPEED_AND_CADENCE }
    let c : ble_rscs_c_t :=
      { heap a with
        evt_handler := ini.evt_handler
        conn_handle := K.BLE_CONN_HANDLE_INVALID
        rsc_cccd_handle := K.BLE_GATT_HANDLE_INVALID }
    { ret := evt_register rscs_uuid
      mp_ble_rscs_c := some a
      heap := Function.update heap a c
      registered := [rscs_uuid] }
  | _, _ =>
    { ret := K.NRF_ERROR_NULL, mp_ble_rscs_c := mp_ble_rscs_c, heap := heap, registered := [] }

/-- What an event leaves behind: the memory, the queue, and the calls made
to the SoftDevice and to the application's handler. -/
structure EvtResult where
  heap : Heap
  tx : TxState
  stack_calls : List StackCall
  app_calls : List AppCall

/-- The function `on_write_rsp`. -/
def on_write_rsp (K : Sdk) (sd : StackCall → Nat) (s : TxState) : TxState × List StackCall :=
  tx_buffer_process K sd s

/-- The function `ble_rscs_c_on_ble_evt`. -/
def ble_rscs_c_on_ble_evt (K : Sdk) (sd : StackCall → Nat) (uninit : ble_rscs_c_evt_t)
    (heap : Heap) (s : TxState) (p_ble_rscs_c : Option Nat) (p_ble_evt : Option ble_evt_t) :
    EvtResult :=
  match p_ble_rscs_c, p_ble_evt with
  | some a, some e =>
    match e.evt_id with
    | ble_evt_id_t.BLE_GAP_EVT_CONNECTED =>
      { heap := Function.update heap a { heap a with conn_handle := e.gap_conn_handle }
        tx := s, stack_calls := [], app_calls := [] }
    | ble_evt_id_t.BLE_GATTC_EVT_HVX =>
      { heap := heap, tx := s, stack_calls := [], app_calls := on_hvx K uninit heap a e }
    | ble_evt_id_t.BLE_GATTC_EVT_WRITE_RSP =>
      let r := on_write_rsp K sd s
      { heap := heap, tx := r.1, stack_calls := r.2, app_calls := [] }
    | ble_evt_id_t.other _ =>
      { heap := heap, tx := s, stack_calls := [], app_calls := [] }
  | _, _ => { heap := heap, tx := s, stack_calls := [], app_calls := [] }

/-- The function `ble_rscs_c_rsc_notif_enable`.  Returns its return value,
the new queue state and the stack calls made. -/
def ble_rscs_c_rsc_notif_enable (K : Sdk) (sd : StackCall → Nat) (heap : Heap) (s : TxState)
    (p_ble_rscs_c : Option Nat) : Nat × TxState × List StackCall :=
  match p_ble_rscs_c with
  | none => (K.NRF_ERROR_NULL, s, [])
  | some a => cccd_configure K sd s (heap a).conn_handle (heap a).rsc_cccd_handle true

/-! ## The timer wrapper of `rtc_timer.cpp` -/

/-- The enum `app_timer_mode_t`. -/
inductive app_timer_mode_t where
  | APP_TIMER_MODE_SINGLE_SHOT
  | APP_TIMER_MODE_REPEATED
  deriving DecidableEq

/-- The data members of the class `RTCTimer`.  `handlerFunc` and
`handlerContext` are addresses. -/
structure RTCTimer where
  handlerFunc : Nat
  handlerContext : Nat
  timerMode : app_timer_mode_t
  timerID : Nat
  timerInterval : Nat
  deriving DecidableEq

/-- A call of the application timer API, with its arguments.  For
`app_timer_create` the first argument is what `*p_timer_id` holds on entry. -/
inductive TimerCall where
  | app_timer_create (timer_id : Nat) (mode : app_timer_mode_t) (timeout_handler : Nat)
  | app_timer_start (timer_id timeout_ticks p_context : Nat)
  | app_timer_stop (timer_id : Nat)
  deriving DecidableEq

/-- The answers of the application timer API: for `app_timer_create` the
status code and what `*p_timer_id` holds on return, for `app_timer_start`
the status code. -/
structure TimerApi where
  app_timer_create : Nat → app_timer_mode_t → Nat → Nat × Nat
  app_timer_start : Nat → Nat → Nat → Nat

/-- What `start` leaves behind: the object, the timer API calls made, and
the status code handed to the fatal error handler if `APP_ERROR_CHECK`
fired. -/
structure StartResult where
  timer : RTCTimer
  calls : List TimerCall
  fatal : Option Nat
  deriving DecidableEq

/-- Modelled from the spec: the macro `APP_ERROR_CHECK` of `app_error.h`, a
header that is not among the sources.  A status code other than
`NRF_SUCCESS` is asserted fatal: execution does not continue. -/
def APP_ERROR_CHECK (K : Sdk) (err_code : Nat) : Option Nat :=
  if err_code ≠ K.NRF_SUCCESS then some err_code else none

/-- The member function `RTCTimer::_init`. -/
def RTCTimer._init (this : RTCTimer) : RTCTimer :=
  { this with
    handlerFunc := 0
    handlerContext := 0
    timerMode := app_timer_mode_t.APP_TIMER_MODE_REPEATED
    timerID := 0 }

/-- The constructor `RTCTimer(interval, handler_fn)`, run on storage with
content `this`. -/
def RTCTimer.new2 (this : RTCTimer) (interval handler_fn : Nat) : RTCTimer :=
  { this._init with
    handlerFunc := handler_fn
    timerInterval := interval
    timerMode := app_timer_mode_t.APP_TIMER_MODE_SINGLE_SHOT }

/-- The constructor `RTCTimer(interval, handler_fn, one_shot)`, run on
storage with content `this`. -/
def RTCTimer.new3 (this : RTCTimer) (interval handler_fn : Nat) (one_shot : Bool) : RTCTimer :=
  { this._init with
    handlerFunc := handler_fn
    timerInterval := interval
    timerMode :=
      if one_shot then app_timer_mode_t.APP_TIMER_MODE_SINGLE_SHOT
      else app_timer_mode_t.APP_TIMER_MODE_REPEATED }

/-- The second `if` of `RTCTimer::start`, after the calls `calls`. -/
def RTCTimer.start_timer (K : Sdk) (api : TimerApi) (this : RTCTimer) (calls : List TimerCall) :
    StartResult :=
  if this.timerID ≠ 0 then
    let err_code := api.app_timer_start this.timerID this.timerInterval this.handlerContext
    { timer := this
      calls :=
        calls ++ [TimerCall.app_timer_start this.timerID this.timerInterval this.handlerContext]
      fatal := APP_ERROR_CHECK K err_code }
  else
    { timer := this, calls := calls, fatal := none }

/-- The member function `RTCTimer::start`. -/
def RTCTimer.start (K : Sdk) (api : TimerApi) (this : RTCTimer) : StartResult :=
  if this.timerID = 0 then
    let r := api.app_timer_create this.timerID this.timerMode this.handlerFunc
    let this1 := { this with timerID := r.2 }
    let calls := [TimerCall.app_timer_create this.timerID this.timerMode this.handlerFunc]
    match APP_ERROR_CHECK K r.1 with
    | some e => { timer := this1, calls := calls, fatal := some e }
    | none => RTCTimer.start_timer K api this1 calls
  else
    RTCTimer.start_timer K api this []

/-! ## Lemmas on the transmit buffer -/

theorem mask_succ (x : Nat) : ((x + 1) % 2 ^ 32) &&& TX_BUFFER_MASK = (x + 1) % 8 := by
  have h := Nat.and_pow_two_sub_one_eq_mod ((x + 1) % 2 ^ 32) 3
  have e : (2 : Nat) ^ 3 - 1 = TX_BUFFER_MASK := by decide
  rw [e] at h
  rw [h]
  have e2 : (2 : Nat) ^ 32 = 4294967296 := by norm_num
  have e3 : (2 : Nat) ^ 3 = 8 := by norm_num
  rw [e2, e3]
  omega

theorem tx_buffer_process_eq (K : Sdk) (sd : StackCall → Nat) (s : TxState) :
    tx_buffer_process K sd s =
      if s.m_tx_index ≠ s.m_tx_insert_index then
        if sd (tx_call s.m_tx_buffer s.m_tx_index) = K.NRF_SUCCESS then
          ({ s with m_tx_index := (s.m_tx_index + 1) % 8 },
            [tx_call s.m_tx_buffer s.m_tx_index])
        else (s, [tx_call s.m_tx_buffer s.m_tx_index])
      else (s, []) := by
  unfold tx_buffer_process
  rw [mask_succ]

theorem tx_buffer_process_insert_index (K : Sdk) (sd : StackCall → Nat) (s : TxState) :
    (tx_buffer_process K sd s).1.m_tx_insert_index = s.m_tx_insert_index := by
  rw [tx_buffer_process_eq]
  split_ifs <;> rfl

theorem tx_buffer_process_buffer (K : Sdk) (sd : StackCall → Nat) (s : TxState) :
    (tx_buffer_process K sd s).1.m_tx_buffer = s.m_tx_buffer := by
  rw [tx_buffer_process_eq]
  split_ifs <;> rfl

theorem tx_buffer_process_index (K : Sdk) (sd : StackCall → Nat) (s : TxState) :
    (tx_buffer_process K sd s).1.m_tx_index =
      if s.m_tx_index ≠ s.m_tx_insert_index ∧
          sd (tx_call s.m_tx_buffer s.m_tx_index) = K.NRF_SUCCESS then
        (s.m_tx_index + 1) % 8
      else s.m_tx_index := by
  rw [tx_buffer_process_eq]
  by_cases h1 : s.m_tx_index ≠ s.m_tx_insert_index
  · by_cases h2 : sd (tx_call s.m_tx_buffer s.m_tx_index) = K.NRF_SUCCESS
    · simp [h1, h2]
    · simp [h1, h2]
  · simp [h1]

theorem tx_buffer_process_calls (K : Sdk) (sd : StackCall → Nat) (s : TxState) :
    (tx_buffer_process K sd s).2 =
      if s.m_tx_index ≠ s.m_tx_insert_index then [tx_call s.m_tx_buffer s.m_tx_index]
      else [] := by
  rw [tx_buffer_process_eq]
  by_cases h1 : s.m_tx_index ≠ s.m_tx_insert_index
  · by_cases h2 : sd (tx_call s.m_tx_buffer s.m_tx_index) = K.NRF_SUCCESS
    · simp [h1, h2]
    · simp [h1, h2]
  · simp [h1]

theorem tx_buffer_process_index_cases (K : Sdk) (sd : StackCall → Nat) (s : TxState) :
    (tx_buffer_process K sd s).1.m_tx_index = s.m_tx_index ∨
      (s.m_tx_index ≠ s.m_tx_insert_index ∧
        (tx_buffer_process K sd s).1.m_tx_index = (s.m_tx_index + 1) % 8) := by
  rw [tx_buffer_process_index]
  split
  · rename_i h
    exact Or.inr ⟨h.1, rfl⟩
  · exact Or.inl rfl

theorem cccd_configure_state (K : Sdk) (sd : StackCall → Nat) (s : TxState)
    (conn_handle handle_cccd : Nat) (enable : Bool) :
    (cccd_configure K sd s conn_handle handle_cccd enable).2.1 =
      (tx_buffer_process K sd
        { s with
          m_tx_insert_index := (s.m_tx_insert_index + 1) % 8
          m_tx_buffer :=
            s.m_tx_buffer.set s.m_tx_insert_index
              (cccd_message K (s.m_tx_buffer.getD s.m_tx_insert_index default)
                s.m_tx_insert_index conn_handle handle_cccd enable) }).1 := by
  unfold cccd_configure
  rw [mask_succ]

theorem cccd_configure_insert_index (K : Sdk) (sd : StackCall → Nat) (s : TxState)
    (conn_handle handle_cccd : Nat) (enable : Bool) :
    (cccd_configure K sd s conn_handle handle_cccd enable).2.1.m_tx_insert_index =
      (s.m_tx_insert_index + 1) % 8 := by
  rw [cccd_configure_state, tx_buffer_process_insert_index]

theorem cccd_configure_buffer_length (K : Sdk) (sd : StackCall → Nat) (s : TxState)
    (conn_handle handle_cccd : Nat) (enable : Bool) :
    (cccd_configure K sd s conn_handle handle_cccd enable).2.1.m_tx_buffer.length =
      s.m_tx_buffer.length := by
  rw [cccd_configure_state, tx_buffer_process_buffer]
  simp

theorem cccd_configure_index_cases (K : Sdk) (sd : StackCall → Nat) (s : TxState)
    (conn_handle handle_cccd : Nat) (enable : Bool) :
    (cccd_configure K sd s conn_handle handle_cccd enable).2.1.m_tx_index = s.m_tx_index ∨
      (s.m_tx_index ≠ (s.m_tx_insert_index + 1) % 8 ∧
        (cccd_configure K sd s conn_handle handle_cccd enable).2.1.m_tx_index =
          (s.m_tx_index + 1) % 8) := by
  rw [cccd_configure_state]
  exact tx_buffer_process_index_cases K sd _

/-- The arithmetic of the queue invariant: with `t`, `i` the consume and
insert index before an operation, `t1`, `i1` after it, and `n`, `m` the
numbers of entries inserted and sent so far. -/
theorem inv_arith (t i n m t1 i1 : Nat) (h1 : t < 8) (h2 : i < 8) (h4 : m ≤ n)
    (h5 : (t + (n - m)) % 8 = i) (hi : i1 = i ∨ i1 = (i + 1) % 8)
    (ht : t1 = t ∨ (t ≠ i1 ∧ t1 = (t + 1) % 8)) :
    t1 < 8 ∧ i1 < 8 ∧ m + advanced t t1 ≤ n + advanced i i1 ∧
      (t1 + ((n + advanced i i1) - (m + advanced t t1))) % 8 = i1 := by
  unfold advanced
  rcases hi with hi | hi <;> rcases ht with ht | ⟨hne, ht⟩ <;> subst hi <;> subst ht <;>
    split_ifs <;> omega

/-- The invariant of the counted queue is kept by every operation: both
indices stay below 8, the buffer keeps its 8 entries, no more entries were
sent than inserted, and the distance between the indices is the number of
pending entries modulo 8. -/
theorem counted_step_inv (K : Sdk) (c : Counted) (op : Op)
    (h : c.q.m_tx_index < 8 ∧ c.q.m_tx_insert_index < 8 ∧ c.q.m_tx_buffer.length = 8 ∧
      c.sent ≤ c.inserted ∧
      (c.q.m_tx_index + (c.inserted - c.sent)) % 8 = c.q.m_tx_insert_index) :
    (c.step K op).q.m_tx_index < 8 ∧ (c.step K op).q.m_tx_insert_index < 8 ∧
      (c.step K op).q.m_tx_buffer.length = 8 ∧ (c.step K op).sent ≤ (c.step K op).inserted ∧
      ((c.step K op).q.m_tx_index + ((c.step K op).inserted - (c.step K op).sent)) % 8 =
        (c.step K op).q.m_tx_insert_index := by
  obtain ⟨h1, h2, h3, h4, h5⟩ := h
  cases op with
  | configure conn_handle handle_cccd enable sd =>
    have hi := cccd_configure_insert_index K sd c.q conn_handle handle_cccd enable
    have hl := cccd_configure_buffer_length K sd c.q conn_handle handle_cccd enable
    have ht := cccd_configure_index_cases K sd c.q conn_handle handle_cccd enable
    rw [← hi] at ht
    have := inv_arith _ _ _ _ _ _ h1 h2 h4 h5 (Or.inr hi) ht
    exact ⟨this.1, this.2.1, hl.trans h3, this.2.2.1, this.2.2.2⟩
  | process sd =>
    have hi := tx_buffer_process_insert_index K sd c.q
    have hl := tx_buffer_process_buffer K sd c.q
    have ht := tx_buffer_process_index_cases K sd c.q
    rw [← hi] at ht
    have := inv_arith _ _ _ _ _ _ h1 h2 h4 h5 (Or.inl hi) ht
    exact ⟨this.1, this.2.1, (congrArg List.length hl).trans h3, this.2.2.1, this.2.2.2⟩

theorem run_inv_from (K : Sdk) (ops : List Op) (c : Counted)
    (h : c.q.m_tx_index < 8 ∧ c.q.m_tx_insert_index < 8 ∧ c.q.m_tx_buffer.length = 8 ∧
      c.sent ≤ c.inserted ∧
      (c.q.m_tx_index + (c.inserted - c.sent)) % 8 = c.q.m_tx_insert_index) :
    (ops.foldl (Counted.step K) c).q.m_tx_index < 8 ∧
      (ops.foldl (Counted.step K) c).q.m_tx_insert_index < 8 ∧
      (ops.foldl (Counted.step K) c).q.m_tx_buffer.length = 8 ∧
      (ops.foldl (Counted.step K) c).sent ≤ (ops.foldl (Counted.step K) c).inserted := by
  induction ops generalizing c with
  | nil => exact ⟨h.1, h.2.1, h.2.2.1, h.2.2.2.1⟩
  | cons op ops ih => exact ih (c.step K op) (counted_step_inv K c op h)

theorem run_inv (K : Sdk) (ops : List Op) :
    (run K ops).q.m_tx_index < 8 ∧ (run K ops).q.m_tx_insert_index < 8 ∧
      (run K ops).q.m_tx_buffer.length = 8 ∧ (run K ops).sent ≤ (run K ops).inserted := by
  apply run_inv_from
  simp [TxState.initial, TX_BUFFER_SIZE, TX_BUFFER_MASK]

/-! ## The transmit buffer: invariants and retry -/

/-- C1: in every state reached from program start by a sequence of
`cccd_configure` calls and `tx_buffer_process` passes, whatever the stack
answers, the number of advances of `m_tx_index` is at most the number of
advances of `m_tx_insert_index`; and `tx_buffer_process` leaves `m_tx_index`
where it is when it equals `m_tx_insert_index`. -/
theorem consume_never_passes_insert (K : Sdk) :
    (∀ ops : List Op, (run K ops).sent ≤ (run K ops).inserted) ∧
      (∀ (sd : StackCall → Nat) (s : TxState), s.m_tx_index = s.m_tx_insert_index →
        (tx_buffer_process K sd s).1.m_tx_index = s.m_tx_index) := by
  refine ⟨fun ops => (run_inv K ops).2.2.2, fun sd s h => ?_⟩
  rw [tx_buffer_process_index]
  simp [h]

/-- C1 at a concrete run: three insertions, the first send refused, then two
processing passes; and a processing pass on the empty initial queue. -/
theorem consume_never_passes_insert_witness :
    (run nrf51Sdk
        [Op.configure 1 2 true (fun _ => 1), Op.configure 1 3 true (fun _ => 0),
          Op.configure 1 4 false (fun _ => 0), Op.process (fun _ => 0),
          Op.process (fun _ => 0)]).sent ≤
      (run nrf51Sdk
        [Op.configure 1 2 true (fun _ => 1), Op.configure 1 3 true (fun _ => 0),
          Op.configure 1 4 false (fun _ => 0), Op.process (fun _ => 0),
          Op.process (fun _ => 0)]).inserted ∧
      (tx_buffer_process nrf51Sdk (fun _ => 0) (TxState.initial nrf51Sdk)).1.m_tx_index =
        (TxState.initial nrf51Sdk).m_tx_index :=
  ⟨(consume_never_passes_insert nrf51Sdk).1 _,
    (consume_never_passes_insert nrf51Sdk).2 (fun _ => 0) (TxState.initial nrf51Sdk) rfl⟩

/-- C2: the buffer has 8 entries; in every state reached from program start
the buffer still has `TX_BUFFER_SIZE` entries and both indices are below
`TX_BUFFER_SIZE`, so the accesses at them are in bounds; `cccd_configure`
sets `m_tx_insert_index` to (old + 1) mod 8 and a send that the stack accepts
sets `m_tx_index` to (old + 1) mod 8. -/
theorem indices_wrap_in_bounds (K : Sdk) :
    TX_BUFFER_SIZE = 8 ∧
      (∀ ops : List Op,
        (run K ops).q.m_tx_buffer.length = TX_BUFFER_SIZE ∧
          (run K ops).q.m_tx_insert_index < TX_BUFFER_SIZE ∧
          (run K ops).q.m_tx_index < TX_BUFFER_SIZE) ∧
      (∀ (sd : StackCall → Nat) (s : TxState) (conn_handle handle_cccd : Nat) (enable : Bool),
        (cccd_configure K sd s conn_handle handle_cccd enable).2.1.m_tx_insert_index =
          (s.m_tx_insert_index + 1) % 8) ∧
      (∀ (sd : StackCall → Nat) (s : TxState), s.m_tx_index ≠ s.m_tx_insert_index →
        sd (tx_call s.m_tx_buffer s.m_tx_index) = K.NRF_SUCCESS →
        (tx_buffer_process K sd s).1.m_tx_index = (s.m_tx_index + 1) % 8) := by
  refine ⟨rfl, fun ops => ?_, fun sd s c h e => cccd_configure_insert_index K sd s c h e,
    fun sd s hne hok => ?_⟩
  · have h := run_inv K ops
    exact ⟨h.2.2.1, h.2.1, h.1⟩
  · rw [tx_buffer_process_index]
    simp [hne, hok]

/-- C2 at a concrete input: a queue with index 7 pending against insert
index 0, where an accepted send wraps the consume index to 0. -/
theorem indices_wrap_in_bounds_witness :
    (tx_buffer_process nrf51Sdk (fun _ => 0)
        { m_tx_buffer := List.replicate 8 (tx_message_zero nrf51Sdk)
          m_tx_insert_index := 0
          m_tx_index := 7 }).1.m_tx_index = (7 + 1) % 8 :=
  (indices_wrap_in_bounds nrf51Sdk).2.2.2 (fun _ => 0)
    { m_tx_buffer := List.replicate 8 (tx_message_zero nrf51Sdk)
      m_tx_insert_index := 0
      m_tx_index := 7 } (by decide) rfl

/-- Retry by a pass that runs on the state a refused pass left (the pass of a
write response): when the queue is not empty and the stack refuses the call
that `tx_buffer_process` makes, the indices and the buffer are unchanged, and
a pass run on that state makes the same call, for the entry at `m_tx_index`,
whatever the stack answers then.  The pass that follows an insertion is the
subject of `retry_after_insertion` and `insertion_wraps_no_call`. -/
theorem failed_send_is_retried (K : Sdk) (sd sd2 : StackCall → Nat) (s : TxState)
    (hne : s.m_tx_index ≠ s.m_tx_insert_index)
    (hfail : ∀ c ∈ (tx_buffer_process K sd s).2, sd c ≠ K.NRF_SUCCESS) :
    (tx_buffer_process K sd s).1 = s ∧
      (tx_buffer_process K sd s).2 = [tx_call s.m_tx_buffer s.m_tx_index] ∧
      (tx_buffer_process K sd2 (tx_buffer_process K sd s).1).2 =
        [tx_call s.m_tx_buffer s.m_tx_index] := by
  have hc : (tx_buffer_process K sd s).2 = [tx_call s.m_tx_buffer s.m_tx_index] := by
    rw [tx_buffer_process_calls]
    simp [hne]
  have hf : sd (tx_call s.m_tx_buffer s.m_tx_index) ≠ K.NRF_SUCCESS :=
    hfail _ (by rw [hc]; exact List.mem_singleton_self _)
  have hs : (tx_buffer_process K sd s).1 = s := by
    rw [tx_buffer_process_eq]
    simp [hne, hf]
  refine ⟨hs, hc, ?_⟩
  rw [hs, tx_buffer_process_calls]
  simp [hne]

/-- The retry by a pass on the unchanged state, at a concrete input: one entry
queued by a `cccd_configure` whose send the stack refused, then a pass that
the stack refuses again. -/
theorem failed_send_is_retried_witness :
    (tx_buffer_process nrf51Sdk (fun _ => 1)
        (cccd_configure nrf51Sdk (fun _ => 1) (TxState.initial nrf51Sdk) 5 9 true).2.1).1 =
        (cccd_configure nrf51Sdk (fun _ => 1) (TxState.initial nrf51Sdk) 5 9 true).2.1 ∧
      (tx_buffer_process nrf51Sdk (fun _ => 1)
        (cccd_configure nrf51Sdk (fun _ => 1) (TxState.initial nrf51Sdk) 5 9 true).2.1).2 =
        [tx_call
          (cccd_configure nrf51Sdk (fun _ => 1) (TxState.initial nrf51Sdk) 5 9 true).2.1.m_tx_buffer
          (cccd_configure nrf51Sdk (fun _ => 1) (TxState.initial nrf51Sdk) 5 9 true).2.1.m_tx_index] ∧
      (tx_buffer_process nrf51Sdk (fun _ => 0)
        (tx_buffer_process nrf51Sdk (fun _ => 1)
          (cccd_configure nrf51Sdk (fun _ => 1) (TxState.initial nrf51Sdk) 5 9 true).2.1).1).2 =
        [tx_call
          (cccd_configure nrf51Sdk (fun _ => 1) (TxState.initial nrf51Sdk) 5 9 true).2.1.m_tx_buffer
          (cccd_configure nrf51Sdk (fun _ => 1) (TxState.initial nrf51Sdk) 5 9 true).2.1.m_tx_index] :=
  failed_send_is_retried nrf51Sdk (fun _ => 1) (fun _ => 0)
    (cccd_configure nrf51Sdk (fun _ => 1) (TxState.initial nrf51Sdk) 5 9 true).2.1
    (by decide) (fun _ _ => Nat.one_ne_zero)

/-! ## Enabling notifications -/

theorem cccd_configure_calls (K : Sdk) (sd : StackCall → Nat) (s : TxState)
    (conn_handle handle_cccd : Nat) (enable : Bool) :
    (cccd_configure K sd s conn_handle handle_cccd enable).2.2 =
      (tx_buffer_process K sd
        { s with
          m_tx_insert_index := (s.m_tx_insert_index + 1) % 8
          m_tx_buffer :=
            s.m_tx_buffer.set s.m_tx_insert_index
              (cccd_message K (s.m_tx_buffer.getD s.m_tx_insert_index default)
                s.m_tx_insert_index conn_handle handle_cccd enable) }).2 := by
  unfold cccd_configure
  rw [mask_succ]

theorem cccd_configure_ret (K : Sdk) (sd : StackCall → Nat) (s : TxState)
    (conn_handle handle_cccd : Nat) (enable : Bool) :
    (cccd_configure K sd s conn_handle handle_cccd enable).1 = K.NRF_SUCCESS := rfl

theorem set_two_bytes (l : List Nat) (a b : Nat) (h : l.length = 2) :
    ((l.set 0 a).set 1 b).take 2 = [a, b] := by
  match l, h with
  | [_, _], _ => rfl

theorem write_value_some (buf : List tx_message_t) (p : ble_gattc_write_params_t) (j : Nat)
    (h : p.p_value = some j) :
    write_value buf p = ((buf.getD j default).req.gattc_value).take p.len := by
  unfold write_value
  rw [h]

/-- The call that `tx_buffer_process` builds for an entry that
`cccd_configure` has just written into a slot of the buffer. -/
theorem tx_call_cccd_message (K : Sdk) (buf : List tx_message_t) (i conn_handle handle_cccd : Nat)
    (enable : Bool) (hlen : K.BLE_CCCD_VALUE_LEN = 2) (hi : i < buf.length)
    (hval : (buf.getD i default).req.gattc_value.length = WRITE_MESSAGE_LENGTH K) :
    tx_call (buf.set i (cccd_message K (buf.getD i default) i conn_handle handle_cccd enable)) i =
      StackCall.sd_ble_gattc_write conn_handle
        { handle := handle_cccd, len := 2, offset := 0, write_op := K.BLE_GATT_OP_WRITE_REQ,
          p_value := some i }
        [LSB (if enable then K.BLE_GATT_HVX_NOTIFICATION else 0),
          MSB (if enable then K.BLE_GATT_HVX_NOTIFICATION else 0)] := by
  have hi2 : i < (buf.set i
      (cccd_message K (buf.getD i default) i conn_handle handle_cccd enable)).length := by
    rw [List.length_set]; exact hi
  have hget : (buf.set i
      (cccd_message K (buf.getD i default) i conn_handle handle_cccd enable)).getD i default =
      cccd_message K (buf.getD i default) i conn_handle handle_cccd enable := by
    rw [List.getD_eq_getElem _ _ hi2, List.getElem_set_self]
  rw [WRITE_MESSAGE_LENGTH, hlen] at hval
  have hw : write_value
      (buf.set i (cccd_message K (buf.getD i default) i conn_handle handle_cccd enable))
      (cccd_message K (buf.getD i default) i conn_handle handle_cccd enable).req.gattc_params =
      [LSB (if enable then K.BLE_GATT_HVX_NOTIFICATION else 0),
        MSB (if enable then K.BLE_GATT_HVX_NOTIFICATION else 0)] := by
    rw [write_value_some _ _ i rfl, hget]
    simp only [cccd_message, WRITE_MESSAGE_LENGTH, hlen]
    exact set_two_bytes _ _ _ hval
  unfold tx_call
  simp only [hget, hw]
  simp [cccd_message, WRITE_MESSAGE_LENGTH, hlen]

/-- C4: for a non-null client, when the queue is empty and the stack accepts
the call, `ble_rscs_c_rsc_notif_enable` makes exactly one call,
`sd_ble_gattc_write` with the client's `conn_handle` and parameters handle =
the client's `rsc_cccd_handle`, len = 2, offset = 0, write_op =
`BLE_GATT_OP_WRITE_REQ`, value bytes LSB then MSB of
`BLE_GATT_HVX_NOTIFICATION`; afterwards the queue is empty again, both
indices being (old index + 1) mod 8.  The hypotheses `hlen`, `hbuf`, `hval`
and `hidx` say that the arrays have their declared sizes and that the insert
index is inside the buffer. -/
theorem notif_enable_consumes_at_once (K : Sdk) (sd : StackCall → Nat) (heap : Heap)
    (s : TxState) (a : Nat) (hlen : K.BLE_CCCD_VALUE_LEN = 2)
    (hbuf : s.m_tx_buffer.length = TX_BUFFER_SIZE)
    (hval : (s.m_tx_buffer.getD s.m_tx_insert_index default).req.gattc_value.length =
      WRITE_MESSAGE_LENGTH K)
    (hidx : s.m_tx_insert_index < TX_BUFFER_SIZE)
    (hempty : s.m_tx_index = s.m_tx_insert_index)
    (hacc : ∀ c ∈ (ble_rscs_c_rsc_notif_enable K sd heap s (some a)).2.2,
      sd c = K.NRF_SUCCESS) :
    (ble_rscs_c_rsc_notif_enable K sd heap s (some a)).2.2 =
        [StackCall.sd_ble_gattc_write (heap a).conn_handle
          { handle := (heap a).rsc_cccd_handle, len := 2, offset := 0,
            write_op := K.BLE_GATT_OP_WRITE_REQ, p_value := some s.m_tx_insert_index }
          [LSB K.BLE_GATT_HVX_NOTIFICATION, MSB K.BLE_GATT_HVX_NOTIFICATION]] ∧
      (ble_rscs_c_rsc_notif_enable K sd heap s (some a)).2.1.m_tx_index =
        (ble_rscs_c_rsc_notif_enable K sd heap s (some a)).2.1.m_tx_insert_index ∧
      (ble_rscs_c_rsc_notif_enable K sd heap s (some a)).2.1.m_tx_insert_index =
        (s.m_tx_insert_index + 1) % 8 := by
  have hi : s.m_tx_insert_index < s.m_tx_buffer.length := by rw [hbuf]; exact hidx
  have hne : s.m_tx_index ≠ (s.m_tx_insert_index + 1) % 8 := by
    rw [hempty]
    have : s.m_tx_insert_index < 8 := hidx
    omega
  have hcall := tx_call_cccd_message K s.m_tx_buffer s.m_tx_insert_index (heap a).conn_handle
    (heap a).rsc_cccd_handle true hlen hi hval
  simp only [if_true] at hcall
  have hcalls : (ble_rscs_c_rsc_notif_enable K sd heap s (some a)).2.2 =
      [StackCall.sd_ble_gattc_write (heap a).conn_handle
        { handle := (heap a).rsc_cccd_handle, len := 2, offset := 0,
          write_op := K.BLE_GATT_OP_WRITE_REQ, p_value := some s.m_tx_insert_index }
        [LSB K.BLE_GATT_HVX_NOTIFICATION, MSB K.BLE_GATT_HVX_NOTIFICATION]] := by
    simp only [ble_rscs_c_rsc_notif_enable]
    rw [cccd_configure_calls, tx_buffer_process_calls]
    simp only [hne, ne_eq, not_false_eq_true, if_true]
    rw [hempty, hcall]
  have hok := hacc _ (by rw [hcalls]; exact List.mem_singleton_self _)
  refine ⟨hcalls, ?_, ?_⟩
  · simp only [ble_rscs_c_rsc_notif_enable]
    rw [cccd_configure_state, tx_buffer_process_index, tx_buffer_process_insert_index]
    simp only [hne, ne_eq, not_false_eq_true, true_and]
    rw [hempty, hcall, if_pos hok]
  · simp only [ble_rscs_c_rsc_notif_enable]
    rw [cccd_configure_insert_index]

/-- C4 at a concrete input: the initial queue, a client with connection
handle 3 and CCCD handle 17, and a stack that accepts every call. -/
theorem notif_enable_consumes_at_once_witness :
    (ble_rscs_c_rsc_notif_enable nrf51Sdk (fun _ => 0)
        (fun _ => { conn_handle := 3, rsc_cccd_handle := 17, rsc_handle := 16, evt_handler := 64 })
        (TxState.initial nrf51Sdk) (some 0)).2.2 =
        [StackCall.sd_ble_gattc_write 3
          { handle := 17, len := 2, offset := 0, write_op := 1, p_value := some 0 } [1, 0]] ∧
      (ble_rscs_c_rsc_notif_enable nrf51Sdk (fun _ => 0)
        (fun _ => { conn_handle := 3, rsc_cccd_handle := 17, rsc_handle := 16, evt_handler := 64 })
        (TxState.initial nrf51Sdk) (some 0)).2.1.m_tx_index =
        (ble_rscs_c_rsc_notif_enable nrf51Sdk (fun _ => 0)
          (fun _ => { conn_handle := 3, rsc_cccd_handle := 17, rsc_handle := 16, evt_handler := 64 })
          (TxState.initial nrf51Sdk) (some 0)).2.1.m_tx_insert_index ∧
      (ble_rscs_c_rsc_notif_enable nrf51Sdk (fun _ => 0)
        (fun _ => { conn_handle := 3, rsc_cccd_handle := 17, rsc_handle := 16, evt_handler := 64 })
        (TxState.initial nrf51Sdk) (some 0)).2.1.m_tx_insert_index = (0 + 1) % 8 :=
  notif_enable_consumes_at_once nrf51Sdk (fun _ => 0)
    (fun _ => { conn_handle := 3, rsc_cccd_handle := 17, rsc_handle := 16, evt_handler := 64 })
    (TxState.initial nrf51Sdk) 0 rfl rfl rfl (by decide) rfl (fun _ _ => rfl)

/-! ## Write responses -/

/-- C5: for a non-null client and an event with id `BLE_GATTC_EVT_WRITE_RSP`,
`ble_rscs_c_on_ble_evt` makes no stack call and changes nothing when the
queue is empty; otherwise it makes exactly one stack call, the one for the
entry at `m_tx_index`, and `m_tx_index` becomes (old + 1) mod 8 if the stack
accepts it and stays if not; in every case `m_tx_insert_index` and the
buffer are unchanged and the application's handler is not called. -/
theorem write_rsp_consumes_one (K : Sdk) (sd : StackCall → Nat) (uninit : ble_rscs_c_evt_t)
    (heap : Heap) (s : TxState) (a : Nat) (e : ble_evt_t)
    (hid : e.evt_id = ble_evt_id_t.BLE_GATTC_EVT_WRITE_RSP) :
    (s.m_tx_index = s.m_tx_insert_index →
        (ble_rscs_c_on_ble_evt K sd uninit heap s (some a) (some e)).stack_calls = [] ∧
          (ble_rscs_c_on_ble_evt K sd uninit heap s (some a) (some e)).tx = s) ∧
      (s.m_tx_index ≠ s.m_tx_insert_index →
        (ble_rscs_c_on_ble_evt K sd uninit heap s (some a) (some e)).stack_calls =
            [tx_call s.m_tx_buffer s.m_tx_index] ∧
          (sd (tx_call s.m_tx_buffer s.m_tx_index) = K.NRF_SUCCESS →
            (ble_rscs_c_on_ble_evt K sd uninit heap s (some a) (some e)).tx.m_tx_index =
              (s.m_tx_index + 1) % 8) ∧
          (sd (tx_call s.m_tx_buffer s.m_tx_index) ≠ K.NRF_SUCCESS →
            (ble_rscs_c_on_ble_evt K sd uninit heap s (some a) (some e)).tx.m_tx_index =
              s.m_tx_index)) ∧
      (ble_rscs_c_on_ble_evt K sd uninit heap s (some a) (some e)).tx.m_tx_insert_index =
        s.m_tx_insert_index ∧
      (ble_rscs_c_on_ble_evt K sd uninit heap s (some a) (some e)).tx.m_tx_buffer =
        s.m_tx_buffer ∧
      (ble_rscs_c_on_ble_evt K sd uninit heap s (some a) (some e)).heap = heap ∧
      (ble_rscs_c_on_ble_evt K sd uninit heap s (some a) (some e)).app_calls = [] := by
  have hr : ble_rscs_c_on_ble_evt K sd uninit heap s (some a) (some e) =
      { heap := heap, tx := (tx_buffer_process K sd s).1,
        stack_calls := (tx_buffer_process K sd s).2, app_calls := [] } := by
    simp only [ble_rscs_c_on_ble_evt, hid, on_write_rsp]
  rw [hr]
  refine ⟨fun h => ?_, fun h => ⟨?_, fun hok => ?_, fun hno => ?_⟩, ?_, ?_, rfl, rfl⟩
  · simp only [tx_buffer_process_eq]
    simp [h]
  · simp only [tx_buffer_process_calls]
    simp [h]
  · simp only [tx_buffer_process_index]
    simp [h, hok]
  · simp only [tx_buffer_process_index]
    simp [hno]
  · exact tx_buffer_process_insert_index K sd s
  · exact tx_buffer_process_buffer K sd s

/-- C5 at concrete inputs: a write response arriving on the empty initial
queue, and one arriving while the entry queued by a refused `cccd_configure`
is pending. -/
theorem write_rsp_consumes_one_witness :
    (ble_rscs_c_on_ble_evt nrf51Sdk (fun _ => 0)
        { evt_type := ble_rscs_c_evt_type_t.BLE_RSCS_C_EVT_DISCOVERY_COMPLETE
          rsc := ⟨false, false, false, 0, 0, 0, 0⟩ }
        (fun _ => { conn_handle := 3, rsc_cccd_handle := 17, rsc_handle := 16, evt_handler := 64 })
        (TxState.initial nrf51Sdk) (some 0)
        (some { evt_id := ble_evt_id_t.BLE_GATTC_EVT_WRITE_RSP, gap_conn_handle := 0,
                hvx := { handle := 0, data := fun _ => 0 } })).stack_calls = [] ∧
      (ble_rscs_c_on_ble_evt nrf51Sdk (fun _ => 0)
        { evt_type := ble_rscs_c_evt_type_t.BLE_RSCS_C_EVT_DISCOVERY_COMPLETE
          rsc := ⟨false, false, false, 0, 0, 0, 0⟩ }
        (fun _ => { conn_handle := 3, rsc_cccd_handle := 17, rsc_handle := 16, evt_handler := 64 })
        (cccd_configure nrf51Sdk (fun _ => 1) (TxState.initial nrf51Sdk) 3 17 true).2.1 (some 0)
        (some { evt_id := ble_evt_id_t.BLE_GATTC_EVT_WRITE_RSP, gap_conn_handle := 0,
                hvx := { handle := 0, data := fun _ => 0 } })).stack_calls =
        [StackCall.sd_ble_gattc_write 3
          { handle := 17, len := 2, offset := 0, write_op := 1, p_value := some 0 } [1, 0]] ∧
      (ble_rscs_c_on_ble_evt nrf51Sdk (fun _ => 0)
        { evt_type := ble_rscs_c_evt_type_t.BLE_RSCS_C_EVT_DISCOVERY_COMPLETE
          rsc := ⟨false, false, false, 0, 0, 0, 0⟩ }
        (fun _ => { conn_handle := 3, rsc_cccd_handle := 17, rsc_handle := 16, evt_handler := 64 })
        (cccd_configure nrf51Sdk (fun _ => 1) (TxState.initial nrf51Sdk) 3 17 true).2.1 (some 0)
        (some { evt_id := ble_evt_id_t.BLE_GATTC_EVT_WRITE_RSP, gap_conn_handle := 0,
                hvx := { handle := 0, data := fun _ => 0 } })).tx.m_tx_index = (0 + 1) % 8 :=
  ⟨((write_rsp_consumes_one nrf51Sdk (fun _ => 0)
      { evt_type := ble_rscs_c_evt_type_t.BLE_RSCS_C_EVT_DISCOVERY_COMPLETE
        rsc := ⟨false, false, false, 0, 0, 0, 0⟩ }
      (fun _ => { conn_handle := 3, rsc_cccd_handle := 17, rsc_handle := 16, evt_handler := 64 })
      (TxState.initial nrf51Sdk) 0
      { evt_id := ble_evt_id_t.BLE_GATTC_EVT_WRITE_RSP, gap_conn_handle := 0,
        hvx := { handle := 0, data := fun _ => 0 } } rfl).1 rfl).1,
    ((write_rsp_consumes_one nrf51Sdk (fun _ => 0)
      { evt_type := ble_rscs_c_evt_type_t.BLE_RSCS_C_EVT_DISCOVERY_COMPLETE
        rsc := ⟨false, false, false, 0, 0, 0, 0⟩ }
      (fun _ => { conn_handle := 3, rsc_cccd_handle := 17, rsc_handle := 16, evt_handler := 64 })
      (cccd_configure nrf51Sdk (fun _ => 1) (TxState.initial nrf51Sdk) 3 17 true).2.1 0
      { evt_id := ble_evt_id_t.BLE_GATTC_EVT_WRITE_RSP, gap_conn_handle := 0,
        hvx := { handle := 0, data := fun _ => 0 } } rfl).2.1 (by decide)).1,
    ((write_rsp_consumes_one nrf51Sdk (fun _ => 0)
      { evt_type := ble_rscs_c_evt_type_t.BLE_RSCS_C_EVT_DISCOVERY_COMPLETE
        rsc := ⟨false, false, false, 0, 0, 0, 0⟩ }
      (fun _ => { conn_handle := 3, rsc_cccd_handle := 17, rsc_handle := 16, evt_handler := 64 })
      (cccd_configure nrf51Sdk (fun _ => 1) (TxState.initial nrf51Sdk) 3 17 true).2.1 0
      { evt_id := ble_evt_id_t.BLE_GATTC_EVT_WRITE_RSP, gap_conn_handle := 0,
        hvx := { handle := 0, data := fun _ => 0 } } rfl).2.1 (by decide)).2.1 rfl⟩

/-! ## Initialisation -/

/-- C6: `ble_rscs_c_init` returns `NRF_ERROR_NULL` if either pointer is null,
and then leaves the module's instance pointer and the memory unchanged and
registers nothing; when both are non-null it stores the client as the
module's instance, sets `evt_handler` to the handler of the init structure,
`conn_handle` to `BLE_CONN_HANDLE_INVALID` and `rsc_cccd_handle` to
`BLE_GATT_HANDLE_INVALID`, registers once with the discovery module for the
Running Speed and Cadence UUID, and returns what
`ble_db_discovery_evt_register` returned. -/
theorem init_null_or_register_status (K : Sdk) (evt_register : ble_uuid_t → Nat)
    (mp_ble_rscs_c : Option Nat) (heap : Heap) (p_ble_rscs_c : Option Nat)
    (p_ble_rscs_c_init : Option ble_rscs_c_init_t) :
    ((p_ble_rscs_c = none ∨ p_ble_rscs_c_init = none) →
        (ble_rscs_c_init K evt_register mp_ble_rscs_c heap p_ble_rscs_c p_ble_rscs_c_init).ret =
            K.NRF_ERROR_NULL ∧
          (ble_rscs_c_init K evt_register mp_ble_rscs_c heap p_ble_rscs_c
            p_ble_rscs_c_init).mp_ble_rscs_c = mp_ble_rscs_c ∧
          (ble_rscs_c_init K evt_register mp_ble_rscs_c heap p_ble_rscs_c
            p_ble_rscs_c_init).heap = heap ∧
          (ble_rscs_c_init K evt_register mp_ble_rscs_c heap p_ble_rscs_c
            p_ble_rscs_c_init).registered = []) ∧
      (∀ (a : Nat) (ini : ble_rscs_c_init_t), p_ble_rscs_c = some a →
        p_ble_rscs_c_init = some ini →
        (ble_rscs_c_init K evt_register mp_ble_rscs_c heap p_ble_rscs_c
            p_ble_rscs_c_init).mp_ble_rscs_c = some a ∧
          ((ble_rscs_c_init K evt_register mp_ble_rscs_c heap p_ble_rscs_c
            p_ble_rscs_c_init).heap a).evt_handler = ini.evt_handler ∧
          ((ble_rscs_c_init K evt_register mp_ble_rscs_c heap p_ble_rscs_c
            p_ble_rscs_c_init).heap a).conn_handle = K.BLE_CONN_HANDLE_INVALID ∧
          ((ble_rscs_c_init K evt_register mp_ble_rscs_c heap p_ble_rscs_c
            p_ble_rscs_c_init).heap a).rsc_cccd_handle = K.BLE_GATT_HANDLE_INVALID ∧
          (ble_rscs_c_init K evt_register mp_ble_rscs_c heap p_ble_rscs_c
            p_ble_rscs_c_init).registered =
            [{ type := K.BLE_UUID_TYPE_BLE, uuid := K.BLE_UUID_RUNNING_SPEED_AND_CADENCE }] ∧
          (ble_rscs_c_init K evt_register mp_ble_rscs_c heap p_ble_rscs_c p_ble_rscs_c_init).ret =
            evt_register
              { type := K.BLE_UUID_TYPE_BLE, uuid := K.BLE_UUID_RUNNING_SPEED_AND_CADENCE }) := by
  constructor
  · intro h
    rcases h with h | h
    · subst h
      exact ⟨rfl, rfl, rfl, rfl⟩
    · subst h
      cases p_ble_rscs_c <;> exact ⟨rfl, rfl, rfl, rfl⟩
  · intro a ini ha hi
    subst ha
    subst hi
    simp [ble_rscs_c_init]

/-- C6 at concrete inputs: a null client pointer, and two valid pointers with
a discovery module that answers 4. -/
theorem init_null_or_register_status_witness :
    (ble_rscs_c_init nrf51Sdk (fun _ => 4) none
        (fun _ => { conn_handle := 3, rsc_cccd_handle := 17, rsc_handle := 16, evt_handler := 64 })
        none (some { evt_handler := 80 })).ret = nrf51Sdk.NRF_ERROR_NULL ∧
      (ble_rscs_c_init nrf51Sdk (fun _ => 4) none
        (fun _ => { conn_handle := 3, rsc_cccd_handle := 17, rsc_handle := 16, evt_handler := 64 })
        (some 0) (some { evt_handler := 80 })).ret = 4 :=
  ⟨((init_null_or_register_status nrf51Sdk (fun _ => 4) none
      (fun _ => { conn_handle := 3, rsc_cccd_handle := 17, rsc_handle := 16, evt_handler := 64 })
      none (some { evt_handler := 80 })).1 (Or.inl rfl)).1,
    ((init_null_or_register_status nrf51Sdk (fun _ => 4) none
      (fun _ => { conn_handle := 3, rsc_cccd_handle := 17, rsc_handle := 16, evt_handler := 64 })
      (some 0) (some { evt_handler := 80 })).2 0 { evt_handler := 80 } rfl rfl).2.2.2.2.2⟩

/-! ## The return value of `ble_rscs_c_rsc_notif_enable` -/

/-- C7 as the code has it: `ble_rscs_c_rsc_notif_enable` returns
`NRF_ERROR_NULL` for a null client pointer, leaving the queue unchanged and
making no stack call; for a non-null client it returns `NRF_SUCCESS`,
whatever the stack answers to the send. -/
theorem notif_enable_return_value (K : Sdk) (sd : StackCall → Nat) (heap : Heap)
    (s : TxState) :
    ble_rscs_c_rsc_notif_enable K sd heap s none = (K.NRF_ERROR_NULL, s, []) ∧
      ∀ a : Nat, (ble_rscs_c_rsc_notif_enable K sd heap s (some a)).1 = K.NRF_SUCCESS :=
  ⟨rfl, fun _ => rfl⟩

/-- C7 fails as stated: on the initial queue, with a non-null client and a
stack that answers 1 (not `NRF_SUCCESS`, which is 0) to every call,
`ble_rscs_c_rsc_notif_enable` makes one `sd_ble_gattc_write` call, the stack
refuses it, and the function still returns `NRF_SUCCESS`. -/
theorem notif_enable_hides_send_failure :
    (ble_rscs_c_rsc_notif_enable nrf51Sdk (fun _ => 1)
        (fun _ => { conn_handle := 3, rsc_cccd_handle := 17, rsc_handle := 16, evt_handler := 64 })
        (TxState.initial nrf51Sdk) (some 0)).2.2 =
        [StackCall.sd_ble_gattc_write 3
          { handle := 17, len := 2, offset := 0, write_op := 1, p_value := some 0 } [1, 0]] ∧
      (fun _ => 1 : StackCall → Nat)
          (StackCall.sd_ble_gattc_write 3
            { handle := 17, len := 2, offset := 0, write_op := 1, p_value := some 0 } [1, 0]) ≠
        nrf51Sdk.NRF_SUCCESS ∧
      (ble_rscs_c_rsc_notif_enable nrf51Sdk (fun _ => 1)
        (fun _ => { conn_handle := 3, rsc_cccd_handle := 17, rsc_handle := 16, evt_handler := 64 })
        (TxState.initial nrf51Sdk) (some 0)).1 = nrf51Sdk.NRF_SUCCESS ∧
      ¬ (∀ (K : Sdk) (sd : StackCall → Nat) (heap : Heap) (s : TxState) (a : Nat),
          (∃ c ∈ (ble_rscs_c_rsc_notif_enable K sd heap s (some a)).2.2, sd c ≠ K.NRF_SUCCESS) →
          (ble_rscs_c_rsc_notif_enable K sd heap s (some a)).1 ≠ K.NRF_SUCCESS) := by
  refine ⟨rfl, by decide, rfl, fun h => ?_⟩
  exact h nrf51Sdk (fun _ => 1)
    (fun _ => { conn_handle := 3, rsc_cccd_handle := 17, rsc_handle := 16, evt_handler := 64 })
    (TxState.initial nrf51Sdk) 0
    ⟨_, List.mem_singleton_self _, Nat.one_ne_zero⟩ rfl

/-! ## Decoding a measurement notification -/

theorem or_shiftLeft_eq_add (a b i : Nat) (h : a < 2 ^ i) : a ||| (b <<< i) = a + 2 ^ i * b := by
  rw [Nat.shiftLeft_eq, Nat.or_comm, Nat.mul_comm, ← Nat.mul_add_lt_is_or h b, Nat.add_comm]

theorem uint16_decode_bytes (p : Nat → Nat) (h0 : p 0 < 256) :
    uint16_decode p = p 0 + 256 * p 1 := by
  unfold uint16_decode
  rw [or_shiftLeft_eq_add _ _ 8 (by norm_num; exact h0)]
  norm_num

theorem uint32_decode_bytes (p : Nat → Nat) (h0 : p 0 < 256) (h1 : p 1 < 256)
    (h2 : p 2 < 256) :
    uint32_decode p = p 0 + 256 * p 1 + 65536 * p 2 + 16777216 * p 3 := by
  unfold uint32_decode
  rw [or_shiftLeft_eq_add (p 0) _ 8 (by norm_num; exact h0)]
  rw [or_shiftLeft_eq_add _ (p 2) 16 (by norm_num; omega)]
  rw [or_shiftLeft_eq_add _ (p 3) 24 (by norm_num; omega)]
  norm_num

theorem flag_bit (d k : Nat) : (((d >>> k) &&& 0x01) != 0) = d.testBit k := by
  unfold Nat.testBit
  rw [Nat.and_comm]

/-- C8: `on_hvx` calls the application's handler once if the notification
handle equals the client's `rsc_handle` and not at all otherwise.  The event
passed has type `BLE_RSCS_C_EVT_RSC_NOTIFICATION`; its three flags are the
bits `BLE_RSCS_INSTANT_STRIDE_LEN_PRESENT`, `BLE_RSCS_TOTAL_DISTANCE_PRESENT`
and `BLE_RSCS_WALKING_OR_RUNNING_STATUS_BIT` of `data[0]`; `inst_speed` is
`data[1] + 256 * data[2]`; `inst_cadence` is `data[3]`; `inst_stride_length`
is `data[4] + 256 * data[5]` when the stride-length flag is set; and
`total_distance` is the little-endian 32-bit value at `data[6]` when both
flags are set and at `data[4]` when only the total-distance flag is set.
The hypothesis says that the elements of `data` are bytes. -/
theorem on_hvx_decodes_measurement (K : Sdk) (uninit : ble_rscs_c_evt_t) (heap : Heap)
    (a : Nat) (e : ble_evt_t) (hbytes : ∀ i, e.hvx.data i < 256) :
    (e.hvx.handle ≠ (heap a).rsc_handle → on_hvx K uninit heap a e = []) ∧
      (e.hvx.handle = (heap a).rsc_handle →
        ∃ ev : ble_rscs_c_evt_t,
          on_hvx K uninit heap a e =
              [{ evt_handler := (heap a).evt_handler, p_ble_rscs_c := a, evt := ev }] ∧
            ev.evt_type = ble_rscs_c_evt_type_t.BLE_RSCS_C_EVT_RSC_NOTIFICATION ∧
            ev.rsc.is_inst_stride_len_present =
              (e.hvx.data 0).testBit K.BLE_RSCS_INSTANT_STRIDE_LEN_PRESENT ∧
            ev.rsc.is_total_distance_present =
              (e.hvx.data 0).testBit K.BLE_RSCS_TOTAL_DISTANCE_PRESENT ∧
            ev.rsc.is_running =
              (e.hvx.data 0).testBit K.BLE_RSCS_WALKING_OR_RUNNING_STATUS_BIT ∧
            ev.rsc.inst_speed = e.hvx.data 1 + 256 * e.hvx.data 2 ∧
            ev.rsc.inst_cadence = e.hvx.data 3 ∧
            (ev.rsc.is_inst_stride_len_present = true →
              ev.rsc.inst_stride_length = e.hvx.data 4 + 256 * e.hvx.data 5) ∧
            (ev.rsc.is_inst_stride_len_present = true → ev.rsc.is_total_distance_present = true →
              ev.rsc.total_distance =
                e.hvx.data 6 + 256 * e.hvx.data 7 + 65536 * e.hvx.data 8 +
                  16777216 * e.hvx.data 9) ∧
            (ev.rsc.is_inst_stride_len_present = false → ev.rsc.is_total_distance_present = true →
              ev.rsc.total_distance =
                e.hvx.data 4 + 256 * e.hvx.data 5 + 65536 * e.hvx.data 6 +
                  16777216 * e.hvx.data 7)) := by
  constructor
  · intro h
    simp only [on_hvx, if_neg h]
  · intro h
    simp only [on_hvx, if_pos h, flag_bit]
    refine ⟨_, rfl, rfl, rfl, rfl, rfl, ?_, rfl, ?_, ?_, ?_⟩
    · exact uint16_decode_bytes (fun j => e.hvx.data (0 + 1 + j)) (hbytes _)
    · intro hs
      have hs1 : (e.hvx.data 0).testBit K.BLE_RSCS_INSTANT_STRIDE_LEN_PRESENT = true := hs
      show (if (e.hvx.data 0).testBit K.BLE_RSCS_INSTANT_STRIDE_LEN_PRESENT = true then
        uint16_decode (fun j => e.hvx.data (0 + 1 + 2 + 1 + j)) else _) = _
      rw [if_pos hs1]
      exact uint16_decode_bytes (fun j => e.hvx.data (0 + 1 + 2 + 1 + j)) (hbytes _)
    · intro hs hd
      have hs1 : (e.hvx.data 0).testBit K.BLE_RSCS_INSTANT_STRIDE_LEN_PRESENT = true := hs
      have hd1 : (e.hvx.data 0).testBit K.BLE_RSCS_TOTAL_DISTANCE_PRESENT = true := hd
      show (if (e.hvx.data 0).testBit K.BLE_RSCS_TOTAL_DISTANCE_PRESENT = true then
        uint32_decode (fun j => e.hvx.data
          ((if (e.hvx.data 0).testBit K.BLE_RSCS_INSTANT_STRIDE_LEN_PRESENT = true then
            0 + 1 + 2 + 1 + 2 else 0 + 1 + 2 + 1) + j)) else _) = _
      rw [if_pos hd1, if_pos hs1]
      exact uint32_decode_bytes (fun j => e.hvx.data (0 + 1 + 2 + 1 + 2 + j)) (hbytes _)
        (hbytes _) (hbytes _)
    · intro hs hd
      have hs1 : ¬ (e.hvx.data 0).testBit K.BLE_RSCS_INSTANT_STRIDE_LEN_PRESENT = true := by
        intro h1
        exact Bool.noConfusion (h1.symm.trans hs)
      have hd1 : (e.hvx.data 0).testBit K.BLE_RSCS_TOTAL_DISTANCE_PRESENT = true := hd
      show (if (e.hvx.data 0).testBit K.BLE_RSCS_TOTAL_DISTANCE_PRESENT = true then
        uint32_decode (fun j => e.hvx.data
          ((if (e.hvx.data 0).testBit K.BLE_RSCS_INSTANT_STRIDE_LEN_PRESENT = true then
            0 + 1 + 2 + 1 + 2 else 0 + 1 + 2 + 1) + j)) else _) = _
      rw [if_pos hd1, if_neg hs1]
      exact uint32_decode_bytes (fun j => e.hvx.data (0 + 1 + 2 + 1 + j)) (hbytes _)
        (hbytes _) (hbytes _)

/-- C8 at concrete inputs: a notification for another handle; and a
notification for the measurement characteristic with flags 3 (stride length
and total distance present), speed 0x0201, cadence 90, stride length 0x0005
and total distance 0x04030201. -/
theorem on_hvx_decodes_measurement_witness :
    on_hvx nrf51Sdk
        { evt_type := ble_rscs_c_evt_type_t.BLE_RSCS_C_EVT_DISCOVERY_COMPLETE
          rsc := ⟨false, false, false, 0, 0, 0, 0⟩ }
        (fun _ => { conn_handle := 3, rsc_cccd_handle := 17, rsc_handle := 16, evt_handler := 64 })
        0
        { evt_id := ble_evt_id_t.BLE_GATTC_EVT_HVX, gap_conn_handle := 0,
          hvx := { handle := 23, data := fun _ => 0 } } = [] ∧
      ∃ ev : ble_rscs_c_evt_t,
        on_hvx nrf51Sdk
            { evt_type := ble_rscs_c_evt_type_t.BLE_RSCS_C_EVT_DISCOVERY_COMPLETE
              rsc := ⟨false, false, false, 0, 0, 0, 0⟩ }
            (fun _ =>
              { conn_handle := 3, rsc_cccd_handle := 17, rsc_handle := 16, evt_handler := 64 })
            0
            { evt_id := ble_evt_id_t.BLE_GATTC_EVT_HVX, gap_conn_handle := 0,
              hvx :=
                { handle := 16, data := fun i => [3, 1, 2, 90, 5, 0, 1, 2, 3, 4].getD i 0 } } =
            [{ evt_handler := 64, p_ble_rscs_c := 0, evt := ev }] ∧
          ev.rsc.inst_speed = 1 + 256 * 2 ∧ ev.rsc.inst_cadence = 90 ∧
          ev.rsc.inst_stride_length = 5 + 256 * 0 ∧
          ev.rsc.total_distance = 1 + 256 * 2 + 65536 * 3 + 16777216 * 4 :=
  ⟨(on_hvx_decodes_measurement nrf51Sdk
      { evt_type := ble_rscs_c_evt_type_t.BLE_RSCS_C_EVT_DISCOVERY_COMPLETE
        rsc := ⟨false, false, false, 0, 0, 0, 0⟩ }
      (fun _ => { conn_handle := 3, rsc_cccd_handle := 17, rsc_handle := 16, evt_handler := 64 })
      0
      { evt_id := ble_evt_id_t.BLE_GATTC_EVT_HVX, gap_conn_handle := 0,
        hvx := { handle := 23, data := fun _ => 0 } }
      (fun _ => Nat.zero_lt_succ 255)).1 (by decide),
    match (on_hvx_decodes_measurement nrf51Sdk
        { evt_type := ble_rscs_c_evt_type_t.BLE_RSCS_C_EVT_DISCOVERY_COMPLETE
          rsc := ⟨false, false, false, 0, 0, 0, 0⟩ }
        (fun _ => { conn_handle := 3, rsc_cccd_handle := 17, rsc_handle := 16, evt_handler := 64 })
        0
        { evt_id := ble_evt_id_t.BLE_GATTC_EVT_HVX, gap_conn_handle := 0,
          hvx := { handle := 16, data := fun i => [3, 1, 2, 90, 5, 0, 1, 2, 3, 4].getD i 0 } }
        (fun i => by
          show [3, 1, 2, 90, 5, 0, 1, 2, 3, 4].getD i 0 < 256
          rcases Nat.lt_or_ge i 10 with h | h
          · interval_cases i <;> decide
          · rw [List.getD_eq_default _ _ (by simpa using h)]
            decide)).2 rfl with
    | ⟨ev, h1, _, h3, h4, _, h6, h7, h8, h9, _⟩ =>
      ⟨ev, h1, h6, h7, h8 (h3.trans (by decide)),
        h9 (h3.trans (by decide)) (h4.trans (by decide))⟩⟩

/-! ## The discovery event handler -/

/-- What the search loop of `db_discover_evt_handler` computes, started at
index `i` with enough fuel to reach `char_count`: it keeps `conn_handle` and
`evt_handler`; it stores the handles of the first characteristic from `i` on
whose UUID is `BLE_UUID_RSC_MEASUREMENT_CHAR`; and it changes nothing if
there is none. -/
theorem db_discover_loop_spec (K : Sdk) (db : ble_db_discovery_srv_t) (c : ble_rscs_c_t) :
    ∀ (fuel i : Nat), db.char_count ≤ i + fuel →
      (db_discover_loop K db c fuel i).conn_handle = c.conn_handle ∧
        (db_discover_loop K db c fuel i).evt_handler = c.evt_handler ∧
        (∀ k, i ≤ k → k < db.char_count →
          (db.charateristics k).characteristic.uuid.uuid = K.BLE_UUID_RSC_MEASUREMENT_CHAR →
          (∀ j, i ≤ j → j < k →
            (db.charateristics j).characteristic.uuid.uuid ≠ K.BLE_UUID_RSC_MEASUREMENT_CHAR) →
          (db_discover_loop K db c fuel i).rsc_cccd_handle = (db.charateristics k).cccd_handle ∧
            (db_discover_loop K db c fuel i).rsc_handle =
              (db.charateristics k).characteristic.handle_value) ∧
        ((∀ k, i ≤ k → k < db.char_count →
            (db.charateristics k).characteristic.uuid.uuid ≠ K.BLE_UUID_RSC_MEASUREMENT_CHAR) →
          db_discover_loop K db c fuel i = c) := by
  intro fuel
  induction fuel with
  | zero =>
    intro i hi
    refine ⟨rfl, rfl, fun k h1 h2 => ?_, fun _ => rfl⟩
    omega
  | succ fuel ih =>
    intro i hi
    unfold db_discover_loop
    by_cases hlt : i < db.char_count
    · rw [if_pos hlt]
      by_cases hm :
          (db.charateristics i).characteristic.uuid.uuid = K.BLE_UUID_RSC_MEASUREMENT_CHAR
      · rw [if_pos hm]
        refine ⟨rfl, rfl, fun k h1 h2 h3 h4 => ?_, fun h => ?_⟩
        · rcases Nat.eq_or_lt_of_le h1 with h5 | h5
          · subst h5
            exact ⟨rfl, rfl⟩
          · exact absurd hm (h4 i (Nat.le_refl i) h5)
        · exact absurd hm (h i (Nat.le_refl i) hlt)
      · rw [if_neg hm]
        obtain ⟨h1, h2, h3, h4⟩ := ih (i + 1) (by omega)
        refine ⟨h1, h2, fun k hk1 hk2 hk3 hk4 => ?_, fun h => ?_⟩
        · rcases Nat.eq_or_lt_of_le hk1 with h5 | h5
          · subst h5
            exact absurd hk3 hm
          · exact h3 k h5 hk2 hk3 (fun j hj1 hj2 => hk4 j (by omega) hj2)
        · exact h4 (fun k hk1 hk2 => h k (by omega) hk2)
    · rw [if_neg hlt]
      refine ⟨rfl, rfl, fun k h1 h2 => ?_, fun _ => rfl⟩
      omega

/-- C9: with the module's instance pointer set, `db_discover_evt_handler`
calls the application's handler, once and with an event of type
`BLE_RSCS_C_EVT_DISCOVERY_COMPLETE`, exactly when the event type is
`BLE_DB_DISCOVERY_COMPLETE` and the service UUID is
`BLE_UUID_RUNNING_SPEED_AND_CADENCE` of type `BLE_UUID_TYPE_BLE`.  In that
case the client's `conn_handle` is the event's, and `rsc_cccd_handle` and
`rsc_handle` are `cccd_handle` and `handle_value` of the first of the
`char_count` characteristics whose UUID is `BLE_UUID_RSC_MEASUREMENT_CHAR`.
For every other event nothing is called and the memory is unchanged. -/
theorem db_discover_notifies (K : Sdk) (uninit : ble_rscs_c_evt_t) (heap : Heap) (a : Nat)
    (p_evt : ble_db_discovery_evt_t) :
    (¬ (p_evt.evt_type = ble_db_discovery_evt_type_t.BLE_DB_DISCOVERY_COMPLETE ∧
          p_evt.discovered_db.srv_uuid.uuid = K.BLE_UUID_RUNNING_SPEED_AND_CADENCE ∧
          p_evt.discovered_db.srv_uuid.type = K.BLE_UUID_TYPE_BLE) →
        db_discover_evt_handler K uninit (some a) heap p_evt = some (heap, [])) ∧
      ((p_evt.evt_type = ble_db_discovery_evt_type_t.BLE_DB_DISCOVERY_COMPLETE ∧
          p_evt.discovered_db.srv_uuid.uuid = K.BLE_UUID_RUNNING_SPEED_AND_CADENCE ∧
          p_evt.discovered_db.srv_uuid.type = K.BLE_UUID_TYPE_BLE) →
        ∃ (heap1 : Heap) (ev : ble_rscs_c_evt_t),
          db_discover_evt_handler K uninit (some a) heap p_evt =
              some (heap1,
                [{ evt_handler := (heap a).evt_handler, p_ble_rscs_c := a, evt := ev }]) ∧
            ev.evt_type = ble_rscs_c_evt_type_t.BLE_RSCS_C_EVT_DISCOVERY_COMPLETE ∧
            (heap1 a).conn_handle = p_evt.conn_handle ∧
            (heap1 a).evt_handler = (heap a).evt_handler ∧
            (∀ b, b ≠ a → heap1 b = heap b) ∧
            (∀ k, k < p_evt.discovered_db.char_count →
              (p_evt.discovered_db.charateristics k).characteristic.uuid.uuid =
                K.BLE_UUID_RSC_MEASUREMENT_CHAR →
              (∀ j, j < k →
                (p_evt.discovered_db.charateristics j).characteristic.uuid.uuid ≠
                  K.BLE_UUID_RSC_MEASUREMENT_CHAR) →
              (heap1 a).rsc_cccd_handle = (p_evt.discovered_db.charateristics k).cccd_handle ∧
                (heap1 a).rsc_handle =
                  (p_evt.discovered_db.charateristics k).characteristic.handle_value) ∧
            ((∀ k, k < p_evt.discovered_db.char_count →
                (p_evt.discovered_db.charateristics k).characteristic.uuid.uuid ≠
                  K.BLE_UUID_RSC_MEASUREMENT_CHAR) →
              (heap1 a).rsc_cccd_handle = (heap a).rsc_cccd_handle ∧
                (heap1 a).rsc_handle = (heap a).rsc_handle)) := by
  constructor
  · intro h
    unfold db_discover_evt_handler
    rw [if_neg h]
  · intro h
    obtain ⟨h1, h2, h3, h4⟩ := db_discover_loop_spec K p_evt.discovered_db
      { heap a with conn_handle := p_evt.conn_handle } p_evt.discovered_db.char_count 0
      (by omega)
    refine ⟨Function.update heap a
        (db_discover_loop K p_evt.discovered_db { heap a with conn_handle := p_evt.conn_handle }
          p_evt.discovered_db.char_count 0),
      { uninit with evt_type := ble_rscs_c_evt_type_t.BLE_RSCS_C_EVT_DISCOVERY_COMPLETE },
      ?_, rfl, ?_, ?_, ?_, ?_, ?_⟩
    · unfold db_discover_evt_handler
      rw [if_pos h]
      simp only [h2]
    · rw [Function.update_same, h1]
    · rw [Function.update_same, h2]
    · intro b hb
      rw [Function.update_noteq hb]
    · intro k hk hm hfirst
      rw [Function.update_same]
      exact h3 k (Nat.zero_le k) hk hm (fun j _ hj => hfirst j hj)
    · intro hnone
      rw [Function.update_same, h4 (fun k _ hk => hnone k hk)]
      exact ⟨rfl, rfl⟩

/-- C9 at concrete inputs: a discovery event of another type, after which
nothing is called and the client is as before; and a completed discovery of
the Running Speed and Cadence service with three characteristics, the second
of which is the measurement characteristic. -/
theorem db_discover_notifies_witness :
    (db_discover_evt_handler nrf51Sdk
          { evt_type := ble_rscs_c_evt_type_t.BLE_RSCS_C_EVT_RSC_NOTIFICATION
            rsc := ⟨false, false, false, 0, 0, 0, 0⟩ }
          (some 0)
          (fun _ => { conn_handle := 0xFFFF, rsc_cccd_handle := 0, rsc_handle := 0,
                      evt_handler := 64 })
          { evt_type := ble_db_discovery_evt_type_t.other 1
            conn_handle := 3
            discovered_db :=
              { srv_uuid := { uuid := 0x1814, type := 1 }
                char_count := 0
                charateristics := fun _ =>
                  { characteristic := { uuid := { uuid := 0, type := 0 }, handle_value := 0 }
                    cccd_handle := 0 } } }).map (fun r => (r.1 0, r.2)) =
        some ({ conn_handle := 0xFFFF, rsc_cccd_handle := 0, rsc_handle := 0, evt_handler := 64 },
          []) ∧
    ∃ (heap1 : Heap) (ev : ble_rscs_c_evt_t),
      db_discover_evt_handler nrf51Sdk
          { evt_type := ble_rscs_c_evt_type_t.BLE_RSCS_C_EVT_RSC_NOTIFICATION
            rsc := ⟨false, false, false, 0, 0, 0, 0⟩ }
          (some 0)
          (fun _ => { conn_handle := 0xFFFF, rsc_cccd_handle := 0, rsc_handle := 0,
                      evt_handler := 64 })
          { evt_type := ble_db_discovery_evt_type_t.BLE_DB_DISCOVERY_COMPLETE
            conn_handle := 3
            discovered_db :=
              { srv_uuid := { uuid := 0x1814, type := 1 }
                char_count := 3
                charateristics := fun i =>
                  { characteristic :=
                      { uuid := { uuid := if i = 1 then 0x2A53 else 0x2A54, type := 1 }
                        handle_value := 16 + 3 * i }
                    cccd_handle := 17 + 3 * i } } } =
          some (heap1, [{ evt_handler := 64, p_ble_rscs_c := 0, evt := ev }]) ∧
        (heap1 0).conn_handle = 3 ∧ (heap1 0).rsc_cccd_handle = 20 ∧ (heap1 0).rsc_handle = 19 :=
  ⟨congrArg (Option.map (fun r => (r.1 0, r.2)))
    ((db_discover_notifies nrf51Sdk
      { evt_type := ble_rscs_c_evt_type_t.BLE_RSCS_C_EVT_RSC_NOTIFICATION
        rsc := ⟨false, false, false, 0, 0, 0, 0⟩ }
      (fun _ => { conn_handle := 0xFFFF, rsc_cccd_handle := 0, rsc_handle := 0,
                  evt_handler := 64 })
      0
      { evt_type := ble_db_discovery_evt_type_t.other 1
        conn_handle := 3
        discovered_db :=
          { srv_uuid := { uuid := 0x1814, type := 1 }
            char_count := 0
            charateristics := fun _ =>
              { characteristic := { uuid := { uuid := 0, type := 0 }, handle_value := 0 }
                cccd_handle := 0 } } }).1 (by decide)),
  match (db_discover_notifies nrf51Sdk
      { evt_type := ble_rscs_c_evt_type_t.BLE_RSCS_C_EVT_RSC_NOTIFICATION
        rsc := ⟨false, false, false, 0, 0, 0, 0⟩ }
      (fun _ => { conn_handle := 0xFFFF, rsc_cccd_handle := 0, rsc_handle := 0,
                  evt_handler := 64 })
      0
      { evt_type := ble_db_discovery_evt_type_t.BLE_DB_DISCOVERY_COMPLETE
        conn_handle := 3
        discovered_db :=
          { srv_uuid := { uuid := 0x1814, type := 1 }
            char_count := 3
            charateristics := fun i =>
              { characteristic :=
                  { uuid := { uuid := if i = 1 then 0x2A53 else 0x2A54, type := 1 }
                    handle_value := 16 + 3 * i }
                cccd_handle := 17 + 3 * i } } }).2 ⟨rfl, rfl, rfl⟩ with
  | ⟨heap1, ev, h1, _, h3, _, _, h6, _⟩ =>
    ⟨heap1, ev, h1, h3,
      (h6 1 (by decide) rfl (fun j hj => by
        have hj0 : j = 0 := by omega
        subst hj0
        decide)).1,
      (h6 1 (by decide) rfl (fun j hj => by
        have hj0 : j = 0 := by omega
        subst hj0
        decide)).2⟩⟩

/-! ## The timer wrapper -/

/-- Both constructors leave `timerID` 0 and `handlerContext` null, and store
the interval, the handler and the mode they were given. -/
theorem constructed_timer_fresh (storage : RTCTimer) (interval handler_fn : Nat)
    (one_shot : Bool) :
    (RTCTimer.new2 storage interval handler_fn).timerID = 0 ∧
      (RTCTimer.new3 storage interval handler_fn one_shot).timerID = 0 ∧
      RTCTimer.new2 storage interval handler_fn =
        RTCTimer.new3 storage interval handler_fn true ∧
      (RTCTimer.new3 storage interval handler_fn one_shot).timerInterval = interval ∧
      (RTCTimer.new3 storage interval handler_fn one_shot).handlerFunc = handler_fn ∧
      (RTCTimer.new3 storage interval handler_fn one_shot).handlerContext = 0 :=
  ⟨rfl, rfl, rfl, rfl, rfl, rfl⟩

theorem start_timer_calls (K : Sdk) (api : TimerApi) (t : RTCTimer) (calls : List TimerCall)
    (h : t.timerID ≠ 0) :
    (RTCTimer.start_timer K api t calls).calls =
        calls ++ [TimerCall.app_timer_start t.timerID t.timerInterval t.handlerContext] ∧
      (RTCTimer.start_timer K api t calls).timer = t := by
  unfold RTCTimer.start_timer
  rw [if_pos h]
  exact ⟨rfl, rfl⟩

/-- C10 as the code has it: for a timer with `timerID` 0, as the constructors
leave it, and a successful `app_timer_create` that stores a nonzero id,
`start` calls `app_timer_create` once with the configured mode and handler
and then `app_timer_start` with that id, the configured interval and the
handler context; a later `start` of the same object does not call
`app_timer_create` and calls `app_timer_start` with the same id. -/
theorem start_creates_once (K : Sdk) (api api2 : TimerApi) (t : RTCTimer) (id : Nat)
    (hfresh : t.timerID = 0)
    (hcreate : api.app_timer_create 0 t.timerMode t.handlerFunc = (K.NRF_SUCCESS, id))
    (hid : id ≠ 0) :
    (t.start K api).calls =
        [TimerCall.app_timer_create 0 t.timerMode t.handlerFunc,
          TimerCall.app_timer_start id t.timerInterval t.handlerContext] ∧
      ((t.start K api).timer.start K api2).calls =
        [TimerCall.app_timer_start id t.timerInterval t.handlerContext] := by
  have h1 : t.start K api =
      RTCTimer.start_timer K api { t with timerID := id }
        [TimerCall.app_timer_create 0 t.timerMode t.handlerFunc] := by
    unfold RTCTimer.start
    rw [if_pos hfresh, hfresh, hcreate]
    simp [APP_ERROR_CHECK]
  have h2 := start_timer_calls K api { t with timerID := id }
    [TimerCall.app_timer_create 0 t.timerMode t.handlerFunc] hid
  rw [h1]
  refine ⟨h2.1, ?_⟩
  rw [h2.2]
  unfold RTCTimer.start
  rw [if_neg hid]
  exact (start_timer_calls K api2 { t with timerID := id } [] hid).1

/-- C10 as the code has it, at a concrete input: a one-shot timer with
interval 1000 and handler 64, and a timer API that hands out id 5. -/
theorem start_creates_once_witness :
    ((RTCTimer.new2 ⟨7, 7, app_timer_mode_t.APP_TIMER_MODE_REPEATED, 7, 7⟩ 1000 64).start nrf51Sdk
        { app_timer_create := fun _ _ _ => (0, 5), app_timer_start := fun _ _ _ => 0 }).calls =
        [TimerCall.app_timer_create 0 app_timer_mode_t.APP_TIMER_MODE_SINGLE_SHOT 64,
          TimerCall.app_timer_start 5 1000 0] ∧
      (((RTCTimer.new2 ⟨7, 7, app_timer_mode_t.APP_TIMER_MODE_REPEATED, 7, 7⟩ 1000 64).start
          nrf51Sdk
          { app_timer_create := fun _ _ _ => (0, 5),
            app_timer_start := fun _ _ _ => 0 }).timer.start nrf51Sdk
        { app_timer_create := fun _ _ _ => (0, 6), app_timer_start := fun _ _ _ => 0 }).calls =
        [TimerCall.app_timer_start 5 1000 0] :=
  start_creates_once nrf51Sdk
    { app_timer_create := fun _ _ _ => (0, 5), app_timer_start := fun _ _ _ => 0 }
    { app_timer_create := fun _ _ _ => (0, 6), app_timer_start := fun _ _ _ => 0 }
    (RTCTimer.new2 ⟨7, 7, app_timer_mode_t.APP_TIMER_MODE_REPEATED, 7, 7⟩ 1000 64) 5
    rfl rfl (by decide)

/-- C10 fails as stated: when a successful `app_timer_create` stores the id
0, `start` on a freshly constructed timer calls `app_timer_create` and then
does not call `app_timer_start`, no error is raised, and a later `start` of
the same object calls `app_timer_create` again. -/
theorem start_with_timer_id_zero :
    ((RTCTimer.new2 ⟨7, 7, app_timer_mode_t.APP_TIMER_MODE_REPEATED, 7, 7⟩ 1000 64).start nrf51Sdk
        { app_timer_create := fun _ _ _ => (0, 0), app_timer_start := fun _ _ _ => 0 }) =
        { timer := ⟨64, 0, app_timer_mode_t.APP_TIMER_MODE_SINGLE_SHOT, 0, 1000⟩
          calls := [TimerCall.app_timer_create 0 app_timer_mode_t.APP_TIMER_MODE_SINGLE_SHOT 64]
          fatal := none } ∧
      (((RTCTimer.new2 ⟨7, 7, app_timer_mode_t.APP_TIMER_MODE_REPEATED, 7, 7⟩ 1000 64).start
          nrf51Sdk
          { app_timer_create := fun _ _ _ => (0, 0),
            app_timer_start := fun _ _ _ => 0 }).timer.start nrf51Sdk
        { app_timer_create := fun _ _ _ => (0, 0), app_timer_start := fun _ _ _ => 0 }).calls =
        [TimerCall.app_timer_create 0 app_timer_mode_t.APP_TIMER_MODE_SINGLE_SHOT 64] := by
  constructor <;> decide

/-! ## The read-request branch -/

theorem cccd_configure_buffer (K : Sdk) (sd : StackCall → Nat) (s : TxState)
    (conn_handle handle_cccd : Nat) (enable : Bool) :
    (cccd_configure K sd s conn_handle handle_cccd enable).2.1.m_tx_buffer =
      s.m_tx_buffer.set s.m_tx_insert_index
        (cccd_message K (s.m_tx_buffer.getD s.m_tx_insert_index default)
          s.m_tx_insert_index conn_handle handle_cccd enable) := by
  rw [cccd_configure_state, tx_buffer_process_buffer]

/-- The type of the entries after `cccd_configure` has filled slot `i`: that
slot has type `WRITE_REQ`, the others keep theirs. -/
theorem cccd_buffer_type (K : Sdk) (buf : List tx_message_t) (i j conn_handle handle_cccd : Nat)
    (enable : Bool) (hi : i < buf.length) :
    ((buf.set i (cccd_message K (buf.getD i default) i conn_handle handle_cccd enable)).getD j
        default).type =
      if j = i then tx_request_t.WRITE_REQ else (buf.getD j default).type := by
  by_cases h : j = i
  · subst h
    rw [if_pos rfl, List.getD_eq_getElem?_getD, List.getElem?_set_self hi]
    rfl
  · rw [if_neg h, List.getD_eq_getElem?_getD, List.getElem?_set_ne (fun e => h e.symm),
      ← List.getD_eq_getElem?_getD]

theorem tx_call_of_write_req (buf : List tx_message_t) (i : Nat)
    (h : (buf.getD i default).type = tx_request_t.WRITE_REQ) :
    (∃ conn_handle p v, tx_call buf i = StackCall.sd_ble_gattc_write conn_handle p v) ∧
      ∀ conn_handle handle offset,
        tx_call buf i ≠ StackCall.sd_ble_gattc_read conn_handle handle offset := by
  unfold tx_call
  simp only [h]
  exact ⟨⟨_, _, _, rfl⟩, fun _ _ _ e => by cases e⟩

/-- The arithmetic of `WrittenInv`: with `t`, `i` the consume and insert
index before an operation, `t1`, `i1` after it, and `n`, `m` the numbers of
entries inserted and sent so far. -/
theorem written_arith (t i n m t1 i1 : Nat) (ht0 : t = m % 8) (hi0 : i = n % 8) (hmn : m ≤ n)
    (hi : i1 = i ∨ i1 = (i + 1) % 8) (ht : t1 = t ∨ (t ≠ i1 ∧ t1 = (t + 1) % 8)) :
    t1 = (m + advanced t t1) % 8 ∧ i1 = (n + advanced i i1) % 8 ∧
      m + advanced t t1 ≤ n + advanced i i1 ∧ (i1 = i → advanced i i1 = 0) ∧
      (i1 = (i + 1) % 8 → advanced i i1 = 1) := by
  unfold advanced
  rcases hi with hi | hi <;> rcases ht with ht | ⟨hne, ht⟩ <;> subst hi <;> subst ht <;>
    refine ⟨?_, ?_, ?_, ?_, ?_⟩ <;> split_ifs <;> omega

/-- Every operation keeps `WrittenInv`, the slots it assigns to being added
to the written ones. -/
theorem written_inv_step (K : Sdk) (c : Counted) (op : Op) (W : List Nat)
    (h : WrittenInv c W) : WrittenInv (c.step K op) (W ++ op.slots c.q) := by
  obtain ⟨h1, h2, h3, h4, h5⟩ := h
  cases op with
  | configure conn_handle handle_cccd enable sd =>
    have hi := cccd_configure_insert_index K sd c.q conn_handle handle_cccd enable
    have hl := cccd_configure_buffer_length K sd c.q conn_handle handle_cccd enable
    have hb := cccd_configure_buffer K sd c.q conn_handle handle_cccd enable
    have ht := cccd_configure_index_cases K sd c.q conn_handle handle_cccd enable
    rw [← hi] at ht
    obtain ⟨a1, a2, a3, _, a5⟩ := written_arith _ _ _ _ _ _ h1 h2 h3 (Or.inr hi) ht
    have hlt : c.q.m_tx_insert_index < c.q.m_tx_buffer.length := by omega
    refine ⟨a1, a2, a3, hl.trans h4, fun j hj8 hjn => ?_⟩
    have hjn1 : j < c.inserted +
        advanced c.q.m_tx_insert_index
          (cccd_configure K sd c.q conn_handle handle_cccd enable).2.1.m_tx_insert_index := hjn
    rw [a5 hi] at hjn1
    show ((cccd_configure K sd c.q conn_handle handle_cccd enable).2.1.m_tx_buffer.getD j
        default).type = tx_request_t.WRITE_REQ ∧ j ∈ W ++ [c.q.m_tx_insert_index]
    rw [hb, cccd_buffer_type K _ _ _ _ _ _ hlt]
    by_cases hj : j = c.q.m_tx_insert_index
    · rw [if_pos hj]
      exact ⟨rfl, List.mem_append_right _ (by rw [hj]; exact List.mem_singleton_self _)⟩
    · rw [if_neg hj]
      have hjn2 : j < c.inserted := by omega
      exact ⟨(h5 j hj8 hjn2).1, List.mem_append_left _ (h5 j hj8 hjn2).2⟩
  | process sd =>
    have hi := tx_buffer_process_insert_index K sd c.q
    have hb := tx_buffer_process_buffer K sd c.q
    have ht := tx_buffer_process_index_cases K sd c.q
    rw [← hi] at ht
    obtain ⟨a1, a2, a3, a4, _⟩ := written_arith _ _ _ _ _ _ h1 h2 h3 (Or.inl hi) ht
    refine ⟨a1, a2, a3, (congrArg List.length hb).trans h4, fun j hj8 hjn => ?_⟩
    have hjn1 : j < c.inserted +
        advanced c.q.m_tx_insert_index (tx_buffer_process K sd c.q).1.m_tx_insert_index := hjn
    rw [a4 hi, Nat.add_zero] at hjn1
    show ((tx_buffer_process K sd c.q).1.m_tx_buffer.getD j default).type =
        tx_request_t.WRITE_REQ ∧ j ∈ W ++ []
    rw [hb, List.append_nil]
    exact h5 j hj8 hjn1

/-- In a state that satisfies `WrittenInv`, every call an operation makes is
an `sd_ble_gattc_write`, and the slot it is made for (the one at
`m_tx_index`) has been assigned to, before or by this operation. -/
theorem written_inv_calls (K : Sdk) (c : Counted) (op : Op) (W : List Nat)
    (h : WrittenInv c W) :
    ∀ call ∈ op.calls K c.q,
      (∃ conn_handle p v, call = StackCall.sd_ble_gattc_write conn_handle p v) ∧
        (∀ conn_handle handle offset,
          call ≠ StackCall.sd_ble_gattc_read conn_handle handle offset) ∧
        c.q.m_tx_index ∈ W ++ op.slots c.q := by
  obtain ⟨h1, h2, h3, h4, h5⟩ := h
  have ht8 : c.q.m_tx_index < 8 := by omega
  intro call hcall
  cases op with
  | configure conn_handle handle_cccd enable sd =>
    have hlt : c.q.m_tx_insert_index < c.q.m_tx_buffer.length := by omega
    have hc : call ∈ (cccd_configure K sd c.q conn_handle handle_cccd enable).2.2 := hcall
    rw [cccd_configure_calls, tx_buffer_process_calls] at hc
    by_cases hne : c.q.m_tx_index ≠ (c.q.m_tx_insert_index + 1) % 8
    · rw [if_pos hne] at hc
      have hceq := List.mem_singleton.mp hc
      have hty : ((c.q.m_tx_buffer.set c.q.m_tx_insert_index
          (cccd_message K (c.q.m_tx_buffer.getD c.q.m_tx_insert_index default)
            c.q.m_tx_insert_index conn_handle handle_cccd enable)).getD c.q.m_tx_index
          default).type = tx_request_t.WRITE_REQ ∧
          c.q.m_tx_index ∈ W ++ [c.q.m_tx_insert_index] := by
        rw [cccd_buffer_type K _ _ _ _ _ _ hlt]
        by_cases hj : c.q.m_tx_index = c.q.m_tx_insert_index
        · rw [if_pos hj]
          exact ⟨rfl, List.mem_append_right _ (by rw [hj]; exact List.mem_singleton_self _)⟩
        · rw [if_neg hj]
          have hjn : c.q.m_tx_index < c.inserted := by omega
          exact ⟨(h5 _ ht8 hjn).1, List.mem_append_left _ (h5 _ ht8 hjn).2⟩
      have hw := tx_call_of_write_req _ _ hty.1
      rw [hceq]
      exact ⟨hw.1, hw.2, hty.2⟩
    · rw [if_neg hne] at hc
      exact absurd hc (List.not_mem_nil _)
  | process sd =>
    have hc : call ∈ (tx_buffer_process K sd c.q).2 := hcall
    rw [tx_buffer_process_calls] at hc
    by_cases hne : c.q.m_tx_index ≠ c.q.m_tx_insert_index
    · rw [if_pos hne] at hc
      have hceq := List.mem_singleton.mp hc
      have hjn : c.q.m_tx_index < c.inserted := by omega
      have hw := tx_call_of_write_req _ _ (h5 _ ht8 hjn).1
      rw [hceq]
      exact ⟨hw.1, hw.2, List.mem_append_left _ (h5 _ ht8 hjn).2⟩
    · rw [if_neg hne] at hc
      exact absurd hc (List.not_mem_nil _)

theorem written_inv_run_from (K : Sdk) (ops : List Op) (c : Counted) (W : List Nat)
    (h : WrittenInv c W) :
    WrittenInv (ops.foldl (Counted.step K) c) (W ++ written_slots K c.q ops) := by
  induction ops generalizing c W with
  | nil =>
    rw [written_slots, List.append_nil]
    exact h
  | cons op ops ih =>
    have h1 := ih (c.step K op) (W ++ op.slots c.q) (written_inv_step K c op W h)
    rw [List.append_assoc] at h1
    exact h1

theorem written_inv_run (K : Sdk) (ops : List Op) :
    WrittenInv (run K ops) (written_slots K (TxState.initial K) ops) := by
  have h := written_inv_run_from K ops
    { q := TxState.initial K, inserted := 0, sent := 0 } []
    ⟨rfl, rfl, Nat.le_refl 0, by simp [TxState.initial, TX_BUFFER_SIZE, TX_BUFFER_MASK],
      fun j _ hj => absurd hj (Nat.not_lt_zero j)⟩
  rw [List.nil_append] at h
  exact h

theorem written_slots_snoc (K : Sdk) (ops : List Op) (op : Op) (c : Counted) :
    written_slots K c.q (ops ++ [op]) =
      written_slots K c.q ops ++ op.slots (ops.foldl (Counted.step K) c).q := by
  induction ops generalizing c with
  | nil => simp [written_slots]
  | cons o os ih =>
    have h := ih (c.step K o)
    simp only [List.cons_append, written_slots, List.foldl_cons, List.append_assoc]
    exact congrArg (fun l => o.slots c.q ++ l) h

/-- C11: the read-request branch of `tx_buffer_process` is unreachable.
The entries of the zero-initialised buffer have type `READ_REQ`.  In every
state reached from program start by a sequence of `cccd_configure` calls and
`tx_buffer_process` passes, whatever the stack answers, if `m_tx_index`
differs from `m_tx_insert_index` then the entry at `m_tx_index` has type
`WRITE_REQ` and its slot has been assigned to by a `cccd_configure` of the
run.  Every stack call that a further operation makes from such a state is
an `sd_ble_gattc_write`, never an `sd_ble_gattc_read`, and the slot it is
made for has been assigned to by a `cccd_configure`. -/
theorem read_branch_unreachable (K : Sdk) :
    (∀ j, j < TX_BUFFER_SIZE →
        ((TxState.initial K).m_tx_buffer.getD j default).type = tx_request_t.READ_REQ) ∧
      (∀ ops : List Op, (run K ops).q.m_tx_index ≠ (run K ops).q.m_tx_insert_index →
        ((run K ops).q.m_tx_buffer.getD (run K ops).q.m_tx_index default).type =
            tx_request_t.WRITE_REQ ∧
          (run K ops).q.m_tx_index ∈ written_slots K (TxState.initial K) ops) ∧
      (∀ (ops : List Op) (op : Op), ∀ call ∈ op.calls K (run K ops).q,
        (∃ conn_handle p v, call = StackCall.sd_ble_gattc_write conn_handle p v) ∧
          (∀ conn_handle handle offset,
            call ≠ StackCall.sd_ble_gattc_read conn_handle handle offset) ∧
          (run K ops).q.m_tx_index ∈ written_slots K (TxState.initial K) (ops ++ [op])) := by
  refine ⟨fun j hj => ?_, fun ops hne => ?_, fun ops op call hcall => ?_⟩
  · have hj8 : j < 8 := hj
    have hlen : j < (TxState.initial K).m_tx_buffer.length := by
      simp [TxState.initial, TX_BUFFER_SIZE, TX_BUFFER_MASK]
      exact hj8
    rw [List.getD_eq_getElem _ _ hlen]
    simp [TxState.initial, tx_message_zero]
  · obtain ⟨h1, h2, h3, _, h5⟩ := written_inv_run K ops
    have ht8 : (run K ops).q.m_tx_index < 8 := by omega
    have hlt : (run K ops).q.m_tx_index < (run K ops).inserted := by omega
    exact h5 _ ht8 hlt
  · have h := written_inv_calls K (run K ops) op _ (written_inv_run K ops) call hcall
    have hs := written_slots_snoc K ops op
      { q := TxState.initial K, inserted := 0, sent := 0 }
    refine ⟨h.1, h.2.1, ?_⟩
    rw [hs]
    exact h.2.2

/-- C11 at concrete inputs: an entry of the initial buffer; the state after
one `cccd_configure` whose send the stack refused, where slot 0 is pending;
and the call that a processing pass makes from that state. -/
theorem read_branch_unreachable_witness :
    ((TxState.initial nrf51Sdk).m_tx_buffer.getD 0 default).type = tx_request_t.READ_REQ ∧
      (((run nrf51Sdk [Op.configure 3 17 true (fun _ => 1)]).q.m_tx_buffer.getD
            (run nrf51Sdk [Op.configure 3 17 true (fun _ => 1)]).q.m_tx_index default).type =
          tx_request_t.WRITE_REQ ∧
        (run nrf51Sdk [Op.configure 3 17 true (fun _ => 1)]).q.m_tx_index ∈
          written_slots nrf51Sdk (TxState.initial nrf51Sdk)
            [Op.configure 3 17 true (fun _ => 1)]) ∧
      ((∃ conn_handle p v,
          StackCall.sd_ble_gattc_write 3
              { handle := 17, len := 2, offset := 0, write_op := 1, p_value := some 0 } [1, 0] =
            StackCall.sd_ble_gattc_write conn_handle p v) ∧
        (∀ conn_handle handle offset,
          StackCall.sd_ble_gattc_write 3
              { handle := 17, len := 2, offset := 0, write_op := 1, p_value := some 0 } [1, 0] ≠
            StackCall.sd_ble_gattc_read conn_handle handle offset) ∧
        (run nrf51Sdk [Op.configure 3 17 true (fun _ => 1)]).q.m_tx_index ∈
          written_slots nrf51Sdk (TxState.initial nrf51Sdk)
            ([Op.configure 3 17 true (fun _ => 1)] ++ [Op.process (fun _ => 0)])) :=
  ⟨(read_branch_unreachable nrf51Sdk).1 0 (by decide),
    (read_branch_unreachable nrf51Sdk).2.1 [Op.configure 3 17 true (fun _ => 1)] (by decide),
    (read_branch_unreachable nrf51Sdk).2.2 [Op.configure 3 17 true (fun _ => 1)]
      (Op.process (fun _ => 0))
      (StackCall.sd_ble_gattc_write 3
        { handle := 17, len := 2, offset := 0, write_op := 1, p_value := some 0 } [1, 0])
      (List.mem_singleton_self _)⟩

/-! ## Retry after an insertion, and the wrap of the queue -/

theorem getD_set_ne (buf : List tx_message_t) (i j : Nat) (m : tx_message_t) (h : i ≠ j) :
    (buf.set i m).getD j default = buf.getD j default := by
  rw [List.getD_eq_getElem?_getD, List.getElem?_set_ne h, ← List.getD_eq_getElem?_getD]

/-- Filling slot `i` leaves the call for another slot `t` as it was, provided
the value pointer of the entry at `t` does not point into slot `i`. -/
theorem tx_call_set_ne (buf : List tx_message_t) (i t : Nat) (m : tx_message_t) (h : i ≠ t)
    (hp : (buf.getD t default).req.gattc_params.p_value ≠ some i) :
    tx_call (buf.set i m) t = tx_call buf t := by
  unfold tx_call
  simp only [getD_set_ne buf i t m h]
  split
  · rfl
  · congr 1
    unfold write_value
    cases hv : (buf.getD t default).req.gattc_params.p_value with
    | none => rfl
    | some j =>
      have hj : i ≠ j := fun e => hp (by rw [hv, e])
      simp only [getD_set_ne buf i j m hj]

/-- The pass inside `cccd_configure`, when the insertion does not wrap the
insert index onto the consume index: it makes the call for the entry that
was pending at `m_tx_index`, so a send refused before is retried. -/
theorem retry_after_insertion (K : Sdk) (sd : StackCall → Nat) (s : TxState)
    (conn_handle handle_cccd : Nat) (enable : Bool)
    (hne : s.m_tx_index ≠ s.m_tx_insert_index)
    (hroom : s.m_tx_index ≠ (s.m_tx_insert_index + 1) % 8)
    (hp : (s.m_tx_buffer.getD s.m_tx_index default).req.gattc_params.p_value ≠
      some s.m_tx_insert_index) :
    (cccd_configure K sd s conn_handle handle_cccd enable).2.2 =
      [tx_call s.m_tx_buffer s.m_tx_index] := by
  rw [cccd_configure_calls, tx_buffer_process_calls]
  simp only [hroom, ne_eq, not_false_eq_true, if_true]
  rw [tx_call_set_ne _ _ _ _ (fun e => hne e.symm) hp]

/-- The pass inside `cccd_configure`, when seven entries are pending: the
insertion wraps the insert index onto the consume index, the pass makes no
call, and the queue is left looking empty. -/
theorem insertion_wraps_no_call (K : Sdk) (sd : StackCall → Nat) (s : TxState)
    (conn_handle handle_cccd : Nat) (enable : Bool)
    (hfull : s.m_tx_index = (s.m_tx_insert_index + 1) % 8) :
    (cccd_configure K sd s conn_handle handle_cccd enable).2.2 = [] ∧
      (cccd_configure K sd s conn_handle handle_cccd enable).2.1.m_tx_index =
        (cccd_configure K sd s conn_handle handle_cccd enable).2.1.m_tx_insert_index := by
  constructor
  · rw [cccd_configure_calls, tx_buffer_process_calls]
    simp [hfull]
  · rw [cccd_configure_insert_index, cccd_configure_state, tx_buffer_process_index]
    simp [hfull]

/-- C3, where the code falls short of it: after seven `cccd_configure` calls
whose sends the stack refused, `m_tx_index` is 0 and `m_tx_insert_index` is
7.  A pass that the stack refuses leaves that state unchanged and was made
for the entry in slot 0 (CCCD handle 11).  The next pass is the one inside
the eighth `cccd_configure`: although the stack would accept, it makes no
call, and both indices are 0 afterwards.  A further pass makes no call
either, and the ninth `cccd_configure` overwrites slot 0 and sends its own
entry (CCCD handle 19): the refused entry is never retried. -/
theorem retry_lost_when_queue_wraps :
    ((run nrf51Sdk
        [Op.configure 3 11 true (fun _ => 1), Op.configure 3 12 true (fun _ => 1),
          Op.configure 3 13 true (fun _ => 1), Op.configure 3 14 true (fun _ => 1),
          Op.configure 3 15 true (fun _ => 1), Op.configure 3 16 true (fun _ => 1),
          Op.configure 3 17 true (fun _ => 1)]).q.m_tx_index = 0 ∧
      (run nrf51Sdk
        [Op.configure 3 11 true (fun _ => 1), Op.configure 3 12 true (fun _ => 1),
          Op.configure 3 13 true (fun _ => 1), Op.configure 3 14 true (fun _ => 1),
          Op.configure 3 15 true (fun _ => 1), Op.configure 3 16 true (fun _ => 1),
          Op.configure 3 17 true (fun _ => 1)]).q.m_tx_insert_index = 7) ∧
      tx_buffer_process nrf51Sdk (fun _ => 1)
          (run nrf51Sdk
            [Op.configure 3 11 true (fun _ => 1), Op.configure 3 12 true (fun _ => 1),
              Op.configure 3 13 true (fun _ => 1), Op.configure 3 14 true (fun _ => 1),
              Op.configure 3 15 true (fun _ => 1), Op.configure 3 16 true (fun _ => 1),
              Op.configure 3 17 true (fun _ => 1)]).q =
        ((run nrf51Sdk
            [Op.configure 3 11 true (fun _ => 1), Op.configure 3 12 true (fun _ => 1),
              Op.configure 3 13 true (fun _ => 1), Op.configure 3 14 true (fun _ => 1),
              Op.configure 3 15 true (fun _ => 1), Op.configure 3 16 true (fun _ => 1),
              Op.configure 3 17 true (fun _ => 1)]).q,
          [StackCall.sd_ble_gattc_write 3
            { handle := 11, len := 2, offset := 0, write_op := 1, p_value := some 0 } [1, 0]]) ∧
      (Op.configure 3 18 true (fun _ => 0)).calls nrf51Sdk
          (run nrf51Sdk
            [Op.configure 3 11 true (fun _ => 1), Op.configure 3 12 true (fun _ => 1),
              Op.configure 3 13 true (fun _ => 1), Op.configure 3 14 true (fun _ => 1),
              Op.configure 3 15 true (fun _ => 1), Op.configure 3 16 true (fun _ => 1),
              Op.configure 3 17 true (fun _ => 1)]).q = [] ∧
      ((run nrf51Sdk
        [Op.configure 3 11 true (fun _ => 1), Op.configure 3 12 true (fun _ => 1),
          Op.configure 3 13 true (fun _ => 1), Op.configure 3 14 true (fun _ => 1),
          Op.configure 3 15 true (fun _ => 1), Op.configure 3 16 true (fun _ => 1),
          Op.configure 3 17 true (fun _ => 1),
          Op.configure 3 18 true (fun _ => 0)]).q.m_tx_index = 0 ∧
      (run nrf51Sdk
        [Op.configure 3 11 true (fun _ => 1), Op.configure 3 12 true (fun _ => 1),
          Op.configure 3 13 true (fun _ => 1), Op.configure 3 14 true (fun _ => 1),
          Op.configure 3 15 true (fun _ => 1), Op.configure 3 16 true (fun _ => 1),
          Op.configure 3 17 true (fun _ => 1),
          Op.configure 3 18 true (fun _ => 0)]).q.m_tx_insert_index = 0) ∧
      (Op.process (fun _ => 0)).calls nrf51Sdk
          (run nrf51Sdk
            [Op.configure 3 11 true (fun _ => 1), Op.configure 3 12 true (fun _ => 1),
              Op.configure 3 13 true (fun _ => 1), Op.configure 3 14 true (fun _ => 1),
              Op.configure 3 15 true (fun _ => 1), Op.configure 3 16 true (fun _ => 1),
              Op.configure 3 17 true (fun _ => 1),
              Op.configure 3 18 true (fun _ => 0)]).q = [] ∧
      (Op.configure 3 19 true (fun _ => 0)).calls nrf51Sdk
          (run nrf51Sdk
            [Op.configure 3 11 true (fun _ => 1), Op.configure 3 12 true (fun _ => 1),
              Op.configure 3 13 true (fun _ => 1), Op.configure 3 14 true (fun _ => 1),
              Op.configure 3 15 true (fun _ => 1), Op.configure 3 16 true (fun _ => 1),
              Op.configure 3 17 true (fun _ => 1),
              Op.configure 3 18 true (fun _ => 0), Op.process (fun _ => 0)]).q =
        [StackCall.sd_ble_gattc_write 3
          { handle := 19, len := 2, offset := 0, write_op := 1, p_value := some 0 } [1, 0]] := by
  refine ⟨⟨?_, ?_⟩, ?_, ?_, ⟨?_, ?_⟩, ?_, ?_⟩ <;> rfl

end BluzDK
